import Mathlib

/-!
# Verification of the OAuth 2.1 authorization core and payment gate

Shallow embedding of the MCP-marketplace backend:

* `src/backend/src/services/oauthRepository.ts` — OAuth client / authorization
  code / refresh token repository over the Supabase tables declared in the
  SQL schema shipped with the repository.
* the OAuth controller (authorize callback and token endpoint),
* `src/backend/src/utils/jwtUtils.ts` — the token codec,
* `src/backend/src/middleware/auth.middleware.ts` — `verifyMCPToken`,
* the MCP payment gate `checkPaymentRequired` / `callApiEndpoint` and the
  `approve_payment` tool `executeApprovePayment`.

Database rows are Lean structures; the backing store is a record of lists
mirroring the tables.  Timestamps are `Nat` (the code only compares them).
Monetary amounts are `Rat`; the JS `parseFloat`/`toFixed` round-trip through
strings is abstracted to the rational value it denotes.  Cryptographic
functions (bcrypt compare, SHA-256, JWT signing) are opaque parameters of the
model: the code only ever compares their outputs for equality.
-/

/-- Payment status as constrained by the `payment_transactions` table check
constraint: `status IN ('pending','processing','completed','failed','expired')`. -/
inductive PayStatus
  | pending
  | processing
  | completed
  | failed
  | expired
deriving DecidableEq, Repr

/-- `startsWith`, evaluated on the underlying character lists (so that the
kernel can compute it on witnesses). -/
def strStartsWith (s pre : String) : Bool :=
  pre.data.isPrefixOf s.data

/-- Rendering of a `PayStatus` as the string stored in the database. -/
def statusStr : PayStatus → String
  | .pending => "pending"
  | .processing => "processing"
  | .completed => "completed"
  | .failed => "failed"
  | .expired => "expired"

/-- A row of `oauth_clients` (schema in the repository's SQL): `user_id` is
nullable for dynamically registered (DCR) clients until first authorization. -/
structure OAuthClient where
  client_id : String
  client_secret_hash : String
  user_id : Option String
  revoked : Bool
  scopes : List String
  last_used_at : Option Nat
deriving DecidableEq, Repr

/-- A row of `authorization_codes`. -/
structure AuthorizationCode where
  code : String
  user_id : String
  client_id : String
  redirect_uri : String
  code_challenge : String
  code_challenge_method : String
  scopes : List String
  expires_at : Nat
  used : Bool
deriving DecidableEq, Repr

/-- A row of `refresh_tokens`; the token itself is stored only as a hash. -/
structure RefreshTokenRec where
  token_hash : String
  user_id : String
  client_id : String
  scopes : List String
  expires_at : Nat
  revoked : Bool
  last_used_at : Option Nat
deriving DecidableEq, Repr

/-- The OAuth backing store: the three tables used by `oauthRepository.ts`. -/
structure OAuthStore where
  clients : List OAuthClient
  authCodes : List AuthorizationCode
  refreshTokens : List RefreshTokenRec
deriving DecidableEq, Repr

/-- `getOAuthClient`: select the client by `client_id` with `revoked = false`
(`.eq("client_id", clientId).eq("revoked", false).single()`). -/
def getOAuthClient (s : OAuthStore) (clientId : String) : Option OAuthClient :=
  s.clients.find? (fun c => c.client_id == clientId && !c.revoked)

/-- `verifyOAuthClient`: resolve the client, then `bcrypt.compare` the supplied
secret against the stored hash; `bcompare` is the abstract bcrypt comparison. -/
def verifyOAuthClient (bcompare : String → String → Bool) (s : OAuthStore)
    (clientId clientSecret : String) : Option OAuthClient :=
  match getOAuthClient s clientId with
  | none => none
  | some c => if bcompare clientSecret c.client_secret_hash then some c else none

/-- `assignDCRClientToUser`: the single conditional update
`.update({user_id}).eq("client_id", clientId).is("user_id", null)` —
only rows whose owner is still null are touched. -/
def assignDCRClientToUser (s : OAuthStore) (clientId userId : String) : OAuthStore :=
  { s with clients := s.clients.map (fun c =>
      if c.client_id == clientId && c.user_id.isNone
      then { c with user_id := some userId } else c) }

/-- `updateClientLastUsed`: set `last_used_at` on the matching client. -/
def updateClientLastUsed (s : OAuthStore) (clientId : String) (now : Nat) : OAuthStore :=
  { s with clients := s.clients.map (fun c =>
      if c.client_id == clientId then { c with last_used_at := some now } else c) }

/-- The read phase of `consumeAuthorizationCode`: the select
`.eq("code", code).eq("used", false).single()` followed by the in-process
expiry comparison `new Date(authCode.expires_at) < new Date()`. -/
def consumeRead (s : OAuthStore) (code : String) (now : Nat) : Option AuthorizationCode :=
  match s.authCodes.find? (fun r => r.code == code && !r.used) with
  | none => none
  | some r => if r.expires_at < now then none else some r

/-- The write phase of `consumeAuthorizationCode`: the separate, unconditional
`.update({used: true}).eq("code", code)`. -/
def consumeWrite (s : OAuthStore) (code : String) : OAuthStore :=
  { s with authCodes := s.authCodes.map (fun r =>
      if r.code == code then { r with used := true } else r) }

/-- `consumeAuthorizationCode` as executed by a single request: the read phase
and, when it produced a row, the write phase.  The value returned to the caller
is the row seen by the read. -/
def consumeAuthorizationCode (s : OAuthStore) (code : String) (now : Nat) :
    Option AuthorizationCode × OAuthStore :=
  match consumeRead s code now with
  | none => (none, s)
  | some r => (some r, consumeWrite s code)

/-- The interleaving of two concurrent executions of
`consumeAuthorizationCode` on the same code in which both reads run before
either write (the schedule the read-then-write implementation admits).
Returns what each caller receives, together with the final store. -/
def consumeInterleaved (s : OAuthStore) (code : String) (now : Nat) :
    (Option AuthorizationCode × Option AuthorizationCode) × OAuthStore :=
  let r1 := consumeRead s code now
  let r2 := consumeRead s code now
  let s1 := if r1.isSome then consumeWrite s code else s
  let s2 := if r2.isSome then consumeWrite s1 code else s1
  ((r1, r2), s2)

/-- `createAuthorizationCode`: insert a fresh row with a 10-minute TTL. -/
def createAuthorizationCode (s : OAuthStore) (code userId clientId redirectUri
    codeChallenge codeChallengeMethod : String) (scopes : List String) (now : Nat) :
    OAuthStore :=
  { s with authCodes :=
      { code := code, user_id := userId, client_id := clientId,
        redirect_uri := redirectUri, code_challenge := codeChallenge,
        code_challenge_method := codeChallengeMethod, scopes := scopes,
        expires_at := now + 10 * 60, used := false } :: s.authCodes }

/-- `createRefreshToken`: insert the SHA-256 hash of a fresh token with a
30-day TTL. -/
def createRefreshTokenRec (s : OAuthStore) (userId clientId : String)
    (scopes : List String) (tokenHash : String) (now : Nat) : OAuthStore :=
  { s with refreshTokens :=
      { token_hash := tokenHash, user_id := userId, client_id := clientId,
        scopes := scopes, expires_at := now + 30 * 24 * 60 * 60,
        revoked := false, last_used_at := none } :: s.refreshTokens }

/-- `verifyRefreshToken`: hash lookup with `revoked = false`, expiry check,
then the `last_used_at` touch. -/
def verifyRefreshToken (shaHex : String → String) (s : OAuthStore)
    (refreshToken : String) (now : Nat) : Option RefreshTokenRec × OAuthStore :=
  let h := shaHex refreshToken
  match s.refreshTokens.find? (fun t => t.token_hash == h && !t.revoked) with
  | none => (none, s)
  | some t =>
    if t.expires_at < now then (none, s)
    else (some t,
      { s with refreshTokens := s.refreshTokens.map (fun t' =>
          if t'.token_hash == h then { t' with last_used_at := some now } else t') })

/-! ## Token codec (`jwtUtils.ts`) -/

/-- The JWT claim set produced by `createAccessToken`.  `aud` is a string or an
array of strings in JS; a single string is embedded as a singleton list, and a
missing claim as `none`. -/
structure JWTPayload where
  sub : String
  scope : String
  client_id : String
  iss : String
  aud : Option (List String)
  exp : Option Nat
  iat : Nat
  type : Option String
deriving DecidableEq, Repr

/-- A compact signed token.  `signedWith` records the secret whose HMAC the
signature matches; verification against a secret succeeds exactly when the
two agree — the shallow model of an unforgeable MAC. -/
structure SignedJWT where
  payload : JWTPayload
  signedWith : String
deriving DecidableEq, Repr

/-- `jwt.sign(payload, secret)`. -/
def jwtSign (payload : JWTPayload) (secret : String) : SignedJWT :=
  { payload := payload, signedWith := secret }

/-- `jwt.verify(token, secret, {issuer, audience})`: signature, issuer,
audience and expiry are all enforced by the library; a token expires when
`now ≥ exp`; a missing `aud` claim fails the audience option. -/
def jwtVerify (tok : SignedJWT) (secret issuer audience : String) (now : Nat) :
    Option JWTPayload :=
  if tok.signedWith == secret
      && tok.payload.iss == issuer
      && (match tok.payload.aud with
          | none => false
          | some l => l.contains audience)
      && (match tok.payload.exp with
          | none => true
          | some e => now < e)
  then some tok.payload else none

/-- `createAccessToken(userId, scopes, clientId, expiresIn)`:
audience pinned to `"mcp"`, type `"access"`. -/
def createAccessToken (secret issuer : String) (userId : String)
    (scopes : List String) (clientId : String) (expiresIn now : Nat) : SignedJWT :=
  jwtSign
    { sub := userId, scope := String.intercalate " " scopes,
      client_id := clientId, iss := issuer, aud := some ["mcp"],
      exp := some (now + expiresIn), iat := now, type := some "access" }
    secret

/-- `verifyAccessToken`: `jwt.verify` with issuer and audience `"mcp"` pinned,
then the `type` check and the redundant in-code audience re-check. -/
def verifyAccessToken (secret issuer : String) (now : Nat) (tok : SignedJWT) :
    Option JWTPayload :=
  match jwtVerify tok secret issuer "mcp" now with
  | none => none
  | some decoded =>
    if (match decoded.type with
        | some t => t != "" && t != "access"
        | none => false) then none
    else match decoded.aud with
      | none => none
      | some audiences => if audiences.contains "mcp" then some decoded else none

/-- Split on a single space character — the model of JS `"...".split(" ")`,
evaluated on the underlying character lists. -/
def splitSpaceAux : List Char → List Char → List (List Char)
  | [], acc => [acc.reverse]
  | c :: rest, acc =>
    if c = ' ' then acc.reverse :: splitSpaceAux rest []
    else splitSpaceAux rest (c :: acc)

/-- JS `scope.split(" ")`. -/
def splitOnSpaceStr (s : String) : List String :=
  (splitSpaceAux s.data []).map (fun l => String.mk l)

/-- `hasRequiredScopes`: every required scope occurs in the space-separated
scope string. -/
def hasRequiredScopes (tokenScopes : String) (requiredScopes : List String) : Bool :=
  requiredScopes.all (fun r => (splitOnSpaceStr tokenScopes).contains r)

/-! ## Auth gate (`verifyMCPToken` in `auth.middleware.ts`) -/

/-- Outcome of the MCP auth middleware: an HTTP rejection (with optional
`WWW-Authenticate` header) or passing control onward with the principal,
scopes and client id attached to the request. -/
inductive MCPAuthResult
  | reject (status : Nat) (wwwAuthenticate : Option String)
      (error : String) (error_description : String)
  | proceed (principal : String) (scopes : List String) (clientId : String)
deriving DecidableEq, Repr

/-- The `WWW-Authenticate` challenge sent when no bearer header is present:
it points at the protected-resource discovery document. -/
def mcpChallenge (baseUrl : String) : String :=
  "Bearer realm=\"mcp\", resource_metadata=\"" ++ baseUrl
    ++ "/.well-known/oauth-protected-resource\""

/-- `verifyMCPToken`.  `lookupTok` maps the bearer string to the signed token
it denotes (a malformed string denotes a token whose signature matches no
secret); `userDir` is the Supabase user directory lookup by id. -/
def verifyMCPToken (secret issuer baseUrl : String) (lookupTok : String → SignedJWT)
    (userDir : String → Bool) (now : Nat) (authHeader : Option String) :
    MCPAuthResult :=
  match authHeader with
  | none =>
    .reject 401 (some (mcpChallenge baseUrl)) "unauthorized"
      "Authorization required for MCP access"
  | some hdr =>
    if !strStartsWith hdr "Bearer " then
      .reject 401 (some (mcpChallenge baseUrl)) "invalid_token"
        "Invalid authorization header format"
    else
      let tok := lookupTok (hdr.drop 7)
      match verifyAccessToken secret issuer now tok with
      | none =>
        .reject 401 (some "Bearer realm=\"mcp\", error=\"invalid_token\"")
          "invalid_token" "Token validation failed"
      | some decoded =>
        if (match decoded.exp with
            | some e => decide (e < now)
            | none => false) then
          .reject 401
            (some "Bearer realm=\"mcp\", error=\"invalid_token\", error_description=\"Token expired\"")
            "invalid_token" "Token has expired"
        else if !hasRequiredScopes decoded.scope ["mcp:tools"] then
          .reject 403 none "insufficient_scope"
            "Token lacks required mcp:tools scope"
        else if !userDir decoded.sub then
          .reject 401 none "invalid_token" "Token user not found"
        else
          .proceed decoded.sub (splitOnSpaceStr decoded.scope)
            decoded.client_id

/-! ## Token endpoint (`token` in the OAuth controller) -/

/-- The POST body of the token endpoint. -/
structure TokenRequest where
  grant_type : Option String
  code : Option String
  redirect_uri : Option String
  client_id : Option String
  client_secret : Option String
  code_verifier : Option String
  refresh_token : Option String
deriving DecidableEq, Repr

/-- JS truthiness of an optional request string: present and non-empty. -/
def strPresent : Option String → Bool
  | none => false
  | some s => s != ""

/-- The token endpoint's response: an OAuth error `{error, error_description}`
with its HTTP status, or the issued token set. -/
inductive TokenResponse
  | error (status : Nat) (error : String) (error_description : String)
  | success (access_token : SignedJWT) (refresh_token : Option String)
      (token_type : String) (expires_in : Nat) (scope : String)
deriving DecidableEq, Repr

/-- The environment threaded through the token endpoint: the abstract
cryptographic primitives and the signing configuration. -/
structure OAuthEnv where
  bcompare : String → String → Bool
  pkceHash : String → String
  shaHex : String → String
  secret : String
  issuer : String

/-- One invocation of the token endpoint: the request body, the clock reading,
and the fresh random refresh-token value drawn by `crypto.randomBytes`. -/
structure TokenCall where
  req : TokenRequest
  now : Nat
  freshRefresh : String

/-- The `grant_type=authorization_code` branch of the token endpoint, after
parameter presence has been established. -/
def tokenAuthCodeExchange (env : OAuthEnv) (s : OAuthStore) (k : TokenCall) :
    TokenResponse × OAuthStore :=
  let codeStr := k.req.code.getD ""
  let redirectUri := k.req.redirect_uri.getD ""
  let clientId := k.req.client_id.getD ""
  let clientSecret := k.req.client_secret.getD ""
  let codeVerifier := k.req.code_verifier.getD ""
  match verifyOAuthClient env.bcompare s clientId clientSecret with
  | none => (.error 401 "invalid_client" "Client authentication failed", s)
  | some client =>
    match consumeAuthorizationCode s codeStr k.now with
    | (none, s1) =>
      (.error 400 "invalid_grant" "Invalid or expired authorization code", s1)
    | (some authCode, s1) =>
      if authCode.client_id != clientId then
        (.error 400 "invalid_grant"
          "Authorization code was not issued to this client", s1)
      else if client.user_id != some authCode.user_id then
        (.error 403 "unauthorized_client"
          "Client does not belong to authorized user", s1)
      else if authCode.redirect_uri != redirectUri then
        (.error 400 "invalid_grant" "Redirect URI mismatch", s1)
      else if env.pkceHash codeVerifier != authCode.code_challenge then
        (.error 400 "invalid_grant" "Invalid code_verifier", s1)
      else
        let s2 := updateClientLastUsed s1 clientId k.now
        let accessToken := createAccessToken env.secret env.issuer
          authCode.user_id authCode.scopes clientId 3600 k.now
        let s3 := createRefreshTokenRec s2 authCode.user_id clientId
          authCode.scopes (env.shaHex k.freshRefresh) k.now
        (.success accessToken (some k.freshRefresh) "Bearer" 3600
          (String.intercalate " " authCode.scopes), s3)

/-- The `grant_type=refresh_token` branch of the token endpoint, after
parameter presence has been established. -/
def tokenRefreshExchange (env : OAuthEnv) (s : OAuthStore) (k : TokenCall) :
    TokenResponse × OAuthStore :=
  let refreshToken := k.req.refresh_token.getD ""
  let clientId := k.req.client_id.getD ""
  let clientSecret := k.req.client_secret.getD ""
  match verifyOAuthClient env.bcompare s clientId clientSecret with
  | none => (.error 401 "invalid_client" "Client authentication failed", s)
  | some client =>
    match verifyRefreshToken env.shaHex s refreshToken k.now with
    | (none, s1) =>
      (.error 400 "invalid_grant" "Invalid or expired refresh token", s1)
    | (some tokenData, s1) =>
      if tokenData.client_id != clientId then
        (.error 400 "invalid_grant"
          "Refresh token was not issued to this client", s1)
      else if client.user_id != some tokenData.user_id then
        (.error 403 "unauthorized_client"
          "Client does not belong to token user", s1)
      else
        let s2 := updateClientLastUsed s1 clientId k.now
        let accessToken := createAccessToken env.secret env.issuer
          tokenData.user_id tokenData.scopes clientId 3600 k.now
        (.success accessToken none "Bearer" 3600
          (String.intercalate " " tokenData.scopes), s2)

/-- The token endpoint `token(req, res)`: grant dispatch and parameter
presence checks, then the corresponding exchange. -/
def tokenStep (env : OAuthEnv) (s : OAuthStore) (k : TokenCall) :
    TokenResponse × OAuthStore :=
  if k.req.grant_type == some "authorization_code" then
    if !(strPresent k.req.code && strPresent k.req.redirect_uri
        && strPresent k.req.client_id && strPresent k.req.client_secret
        && strPresent k.req.code_verifier) then
      (.error 400 "invalid_request" "Missing required parameters", s)
    else tokenAuthCodeExchange env s k
  else if k.req.grant_type == some "refresh_token" then
    if !(strPresent k.req.refresh_token && strPresent k.req.client_id
        && strPresent k.req.client_secret) then
      (.error 400 "invalid_request" "Missing required parameters", s)
    else tokenRefreshExchange env s k
  else
    (.error 400 "unsupported_grant_type"
      "Only authorization_code and refresh_token are supported", s)

/-- Run a list of token-endpoint calls sequentially from a store. -/
def execCalls (env : OAuthEnv) (s : OAuthStore) : List TokenCall → OAuthStore
  | [] => s
  | k :: ks => execCalls env (tokenStep env s k).2 ks

/-- Whether a token response is a success (a token set was issued). -/
def isSuccess : TokenResponse → Bool
  | .success _ _ _ _ _ => true
  | .error _ _ _ => false

/-- Whether a call is an exchange of authorization code `c`. -/
def usesCode (k : TokenCall) (c : String) : Bool :=
  k.req.grant_type == some "authorization_code" && k.req.code == some c

/-- Number of successful exchanges of code `c` along a sequential run of the
token endpoint. -/
def countCodeSuccesses (env : OAuthEnv) (s : OAuthStore) (c : String) :
    List TokenCall → Nat
  | [] => 0
  | k :: ks =>
    (if usesCode k c && isSuccess (tokenStep env s k).1 then 1 else 0)
      + countCodeSuccesses env (tokenStep env s k).2 c ks

/-- Every row of code `c` in the store is marked used (or no such row exists):
the code can no longer be exchanged. -/
def codeDead (s : OAuthStore) (c : String) : Prop :=
  ∀ r ∈ s.authCodes, r.code = c → r.used = true

/-- A request body that is a well-formed authorization-code exchange of code
`c` (the shape that reaches `consumeAuthorizationCode` once the client
authenticates). -/
def wfExchangeReq (r : TokenRequest) (c : String) : Prop :=
  r.grant_type = some "authorization_code" ∧ r.code = some c ∧ c ≠ ""
    ∧ strPresent r.redirect_uri = true ∧ strPresent r.client_id = true
    ∧ strPresent r.client_secret = true ∧ strPresent r.code_verifier = true

/-- The call's client credentials verify against store `s`. -/
def clientAuthOk (env : OAuthEnv) (s : OAuthStore) (r : TokenRequest) : Prop :=
  ∃ cl, verifyOAuthClient env.bcompare s (r.client_id.getD "")
    (r.client_secret.getD "") = some cl

/-! ## Authorization callback (`authorizeCallback` in the OAuth controller) -/

/-- An entry of the in-memory `pendingAuthorizations` map. -/
structure PendingAuth where
  state : String
  expiresAt : Nat
deriving DecidableEq, Repr

/-- The POST body of the authorize callback. -/
structure CallbackReq where
  auth_id : String
  client_id : String
  redirect_uri : String
  state : String
  code_challenge : String
  code_challenge_method : String
  scope : Option String
  approved : String
deriving DecidableEq, Repr

/-- State visible to the authorize callback: the pending-authorization map
and the OAuth store. -/
structure CallbackState where
  pending : List (String × PendingAuth)
  store : OAuthStore
deriving DecidableEq, Repr

/-- Result of the authorize callback: a JSON error or a
`{redirect_url}` payload. -/
inductive CallbackResult
  | errorResp (status : Nat) (error : String) (error_description : String)
  | redirect (url : String)
deriving DecidableEq, Repr

/-- `authorizeCallback`: pending-authorization validation, denial handling,
client resolution, first-use DCR owner assignment with re-read, the ownership
check, and issuance of the authorization code.  `principal` is the
authenticated user (`req.user`), `freshCode` the random code value. -/
def authorizeCallback (st : CallbackState) (principal : Option String)
    (body : CallbackReq) (now : Nat) (freshCode : String) :
    CallbackResult × CallbackState :=
  match principal with
  | none => (.errorResp 401 "unauthorized" "User not authenticated", st)
  | some userId =>
    match st.pending.lookup body.auth_id with
    | none =>
      (.errorResp 400 "invalid_request"
        "Authorization request expired or invalid", st)
    | some pa =>
      if pa.expiresAt < now then
        (.errorResp 400 "invalid_request"
          "Authorization request expired or invalid", st)
      else
        let st1 : CallbackState :=
          { st with pending := st.pending.filter (fun e => e.1 != body.auth_id) }
        if body.approved != "true" then
          (.redirect (body.redirect_uri ++ "?error=access_denied&state="
            ++ body.state), st1)
        else
          match getOAuthClient st1.store body.client_id with
          | none => (.errorResp 403 "unauthorized_client" "Client not found", st1)
          | some client =>
            let isDCRClient := strStartsWith body.client_id "dcr_"
            let store2 :=
              if isDCRClient && client.user_id.isNone then
                assignDCRClientToUser st1.store body.client_id userId
              else st1.store
            match getOAuthClient store2 body.client_id with
            | none =>
              (.errorResp 500 "server_error" "Failed to assign client to user",
                { st1 with store := store2 })
            | some clientFinal =>
              if clientFinal.user_id != some userId then
                (.errorResp 403 "unauthorized_client"
                  "Client does not belong to this user",
                  { st1 with store := store2 })
              else
                let scopes :=
                  (body.scope.getD "mcp:tools mcp:resources").splitOn " "
                let store3 := createAuthorizationCode store2 freshCode userId
                  body.client_id body.redirect_uri body.code_challenge
                  body.code_challenge_method scopes now
                (.redirect (body.redirect_uri ++ "?code=" ++ freshCode
                  ++ "&state=" ++ body.state), { st1 with store := store3 })

/-- The ownership check a callback performs after the DCR assignment:
the re-read client's owner must be the authorizing principal. -/
def ownershipCheck (s : OAuthStore) (clientId principal : String) : Bool :=
  match getOAuthClient s clientId with
  | none => false
  | some c => c.user_id == some principal

/-! ## Payment gate (`checkPaymentRequired`, `callApiEndpoint`,
`executeApprovePayment`)

The payment / balance repositories (`paymentRepository.ts`,
`balanceRepository.ts`) are imported by the gate but their sources are not
part of the repository snapshot; they are CRUD over the `payment_transactions`
and `user_balances` tables of the shipped SQL schema and are modelled from
that schema and the specification's data model. -/

/-- A row of `payment_transactions` (schema in the repository's SQL). -/
structure PaymentRecord where
  payment_id : String
  user_id : String
  endpoint_id : String
  from_wallet : String
  to_wallet : String
  amount_eth : Rat
  status : PayStatus
  blockchain_tx_hash : Option String
  error_message : Option String
deriving DecidableEq, Repr

/-- Modelled from the spec: `getPaymentByPaymentId` — fetch the PaymentRecord
by its unique `payment_id` (`payment_transactions.payment_id` is UNIQUE). -/
def getPaymentByPaymentId (ps : List PaymentRecord) (pid : String) :
    Option PaymentRecord :=
  ps.find? (fun p => p.payment_id == pid)

/-- Modelled from the spec: `createPaymentTransaction` — insert a fresh
PaymentRecord in its initial `pending` state ("PaymentRecord created when
settlement begins"). -/
def createPaymentTransaction (ps : List PaymentRecord)
    (pid userId endpointId fromWallet toWallet : String) (amount : Rat) :
    PaymentRecord × List PaymentRecord :=
  let rec0 : PaymentRecord :=
    { payment_id := pid, user_id := userId, endpoint_id := endpointId,
      from_wallet := fromWallet, to_wallet := toWallet, amount_eth := amount,
      status := .pending, blockchain_tx_hash := none, error_message := none }
  (rec0, rec0 :: ps)

/-- Modelled from the spec: `updatePaymentStatus` / `updatePaymentTransaction`
— set the status and, when supplied, the ledger transaction reference of the
record with the given `payment_id`. -/
def updatePaymentStatus (ps : List PaymentRecord) (pid : String)
    (st : PayStatus) (txHash : Option String) : List PaymentRecord :=
  ps.map (fun p =>
    if p.payment_id == pid then
      { p with
          status := st,
          blockchain_tx_hash := (match txHash with
            | some h => some h
            | none => p.blockchain_tx_hash) }
    else p)

/-- Modelled from the spec: `markPaymentFailed` — terminal `failed` state
carrying the error text. -/
def markPaymentFailed (ps : List PaymentRecord) (pid errMsg : String) :
    List PaymentRecord :=
  ps.map (fun p =>
    if p.payment_id == pid then
      { p with
          status := .failed,
          error_message := some errMsg }
    else p)

/-- The `user_balances` table: internal accounting of each user's custodial
balance, absent rows reading as zero (`getOrCreateBalance` creates them
at 0). -/
def Balances := List (String × Rat)

/-- Modelled from the spec: `getOrCreateBalance` — the user's current internal
balance, zero for a fresh account. -/
def getOrCreateBalance (bs : Balances) (userId : String) : Rat :=
  ((List.lookup userId bs).getD 0)

/-- Write a user's balance. -/
def setBalance (bs : Balances) (userId : String) (v : Rat) : Balances :=
  match bs with
  | [] => [(userId, v)]
  | e :: rest =>
    if e.1 == userId then (userId, v) :: rest else e :: setBalance rest userId v

/-- Modelled from the spec: `deductPayment` — subtract the amount from the
user's internal balance (the local pre-deduction of settlement). -/
def deductPayment (bs : Balances) (userId : String) (amount : Rat) : Balances :=
  setBalance bs userId (getOrCreateBalance bs userId - amount)

/-- Modelled from the spec: `addDeposit` — add to the user's internal balance
(used both for deposits and for reversing a pre-deduction). -/
def addDeposit (bs : Balances) (userId : String) (amount : Rat) : Balances :=
  setBalance bs userId (getOrCreateBalance bs userId + amount)

/-- A declared endpoint parameter (`parameters` JSON of the `endpoints`
table): `required` defaults to true — only an explicit `false` makes it
optional (`param.required !== false`). -/
structure EndpointParam where
  name : String
  required : Option Bool
deriving DecidableEq, Repr

/-- HTTP method of an endpoint. -/
inductive HTTPMethod
  | GET
  | POST
  | PUT
  | DELETE
  | PATCH
deriving DecidableEq, Repr

/-- An endpoint as seen by the MCP server (`APIEndpoint`): blockchain
endpoints carry `price_per_call_eth` and `developer_wallet_address`.
`price_per_call_eth` is the rational value of the price string
(`parseFloat(endpoint.price_per_call_eth || "0")`). -/
structure APIEndpoint where
  id : Option String
  name : String
  url : String
  method : HTTPMethod
  parameters : List EndpointParam
  price_per_call_eth : Option Rat
  developer_wallet_address : Option String
deriving DecidableEq, Repr

/-- Tool arguments: an association list of argument names to (string-rendered)
values; `_payment_id` travels in here. -/
abbrev Args := List (String × String)

/-- One submission to the ledger collaborator
(`executeAutomaticPayment(userBalanceId, endpointId, amountSui,
developerWallet)`). -/
structure LedgerCall where
  userBalanceId : String
  endpointId : String
  amount : Rat
  developerWallet : String
deriving DecidableEq, Repr

/-- The `payment_details` object attached to 402/500 responses; every field is
optional because each branch populates a different subset.  Numeric fields
hold the rational values the code renders with `toFixed`. -/
structure PaymentDetails where
  payment_id : Option String := none
  status : Option PayStatus := none
  message : Option String := none
  action_required : Option String := none
  reason : Option String := none
  amount_needed : Option Rat := none
  current_balance : Option Rat := none
  required : Option Rat := none
  shortfall : Option Rat := none
  error : Option String := none
  balance_object_id : Option String := none
  endpoint_id : Option String := none
  amount : Option Rat := none
  -- present so its absence from every gate response is statable: no branch
  -- of `checkPaymentRequired` ever emits a `refunded` key
  refunded : Option Bool := none
deriving DecidableEq, Repr

/-- The `ApiResponse` envelope of the MCP server. -/
structure ApiResponse where
  success : Bool
  status_code : Option Nat := none
  message : Option String := none
  payment_details : Option PaymentDetails := none
deriving DecidableEq, Repr

/-- Result of `getUserOnChainBalance`: the on-chain `UserBalance` object
mirror (`balance` is available = deposited − spent). -/
structure UserBalanceInfo where
  has_balance_account : Bool
  balance_object_id : Option String
  balance : Rat
deriving DecidableEq, Repr

/-- Environment of one `checkPaymentRequired` run: the caller's on-chain
balance snapshot, the outcome the ledger collaborator would give the
submission (`Except.ok txHash` or `Except.error message`), and the fresh
`payment_id` `createPaymentTransaction` would draw. -/
structure PaymentEnv where
  balanceInfo : Option UserBalanceInfo
  ledger : Except String String
  freshPaymentId : String
  platformWallet : String

/-- What a `checkPaymentRequired` run produced: the response (`none` = payment
satisfied, proceed to invocation), the updated payment table, the updated
args (a consumed `_payment_id` is removed), the ledger submissions attempted,
and whether the caller's balance was consulted. -/
structure GateResult where
  response : Option ApiResponse
  payments : List PaymentRecord
  args : Args
  ledgerCalls : List LedgerCall
  balanceChecked : Bool

/-- A plain 402 response with only a message. -/
def resp402 (msg : String) : ApiResponse :=
  { success := false, status_code := some 402, message := some msg }

/-- A 402 response with a `payment_details` object. -/
def resp402d (msg : String) (d : PaymentDetails) : ApiResponse :=
  { success := false, status_code := some 402, message := some msg,
    payment_details := some d }

/-- A 500 response with a `payment_details` object. -/
def resp500d (msg : String) (d : PaymentDetails) : ApiResponse :=
  { success := false, status_code := some 500, message := some msg,
    payment_details := some d }

/-- `checkPaymentRequired(endpoint, endUserId, developerId, args)`. -/
def checkPaymentRequired (env : PaymentEnv) (endpoint : APIEndpoint)
    (endUserId developerId : String) (args : Args)
    (payments : List PaymentRecord) : GateResult :=
  let endpointId := endpoint.id.getD endpoint.name
  let price := endpoint.price_per_call_eth.getD 0
  if price ≤ 0 then
    { response := none, payments := payments, args := args,
      ledgerCalls := [], balanceChecked := false }
  else
    let developerWallet := endpoint.developer_wallet_address.getD developerId
    let paymentId := (List.lookup "_payment_id" args).getD ""
    if paymentId != "" then
      let resp := fun (r : ApiResponse) =>
        ({ response := some r, payments := payments, args := args,
           ledgerCalls := [], balanceChecked := false } : GateResult)
      match getPaymentByPaymentId payments paymentId with
      | none => resp (resp402 "Invalid payment_id provided")
      | some payment =>
        if payment.user_id != endUserId then
          resp (resp402 "Unauthorized: payment_id belongs to another user")
        else if payment.endpoint_id != endpointId then
          resp (resp402 "payment_id is for a different endpoint")
        else if payment.status = .completed then
          { response := none, payments := payments,
            args := args.filter (fun e => e.1 != "_payment_id"),
            ledgerCalls := [], balanceChecked := false }
        else
          resp (resp402d
            ("Payment " ++ paymentId ++ " status is "
              ++ statusStr payment.status ++ ", not completed")
            { payment_id := some paymentId,
              status := some payment.status,
              message := some (if payment.status = .pending then
                  "Call approve_payment tool to complete this payment"
                else
                  "Payment status: " ++ statusStr payment.status
                    ++ ". Cannot proceed.") })
    else
      let respB := fun (r : ApiResponse) =>
        ({ response := some r, payments := payments, args := args,
           ledgerCalls := [], balanceChecked := true } : GateResult)
      let depositRequired := respB (resp402d
        "DEPOSIT REQUIRED - You need to deposit SUI into your balance account to use paid tools."
        { action_required := some "deposit",
          reason := some "No balance account found",
          amount_needed := some price })
      match env.balanceInfo with
      | none => depositRequired
      | some userBalance =>
        if !userBalance.has_balance_account then depositRequired
        else if userBalance.balance < price then
          respB (resp402d
            "INSUFFICIENT BALANCE"
            { action_required := some "deposit",
              current_balance := some userBalance.balance,
              required := some price,
              shortfall := some (price - userBalance.balance) })
        else
          let call : LedgerCall :=
            { userBalanceId := userBalance.balance_object_id.getD "",
              endpointId := endpointId, amount := price,
              developerWallet := developerWallet }
          match env.ledger with
          | .ok txHash =>
            let created := createPaymentTransaction payments
              env.freshPaymentId endUserId endpointId env.platformWallet
              developerWallet price
            let payments2 := updatePaymentStatus created.2
              env.freshPaymentId .completed (some txHash)
            { response := none, payments := payments2, args := args,
              ledgerCalls := [call], balanceChecked := true }
          | .error e =>
            { response := some (resp500d ("Payment execution failed: " ++ e)
                { error := some e,
                  balance_object_id := userBalance.balance_object_id,
                  endpoint_id := some endpointId, amount := some price }),
              payments := payments, args := args, ledgerCalls := [call],
              balanceChecked := true }

/-! ## `callApiEndpoint` -/

/-- The names of the four reserved payment-utility tools (`PAYMENT_TOOLS`). -/
def paymentToolNames : List String :=
  ["approve_payment", "get_balance", "check_payment_status",
    "get_deposit_address"]

/-- An outbound HTTP request the invocation executor would perform. -/
structure HttpCall where
  method : HTTPMethod
  url : String
  requestArgs : Args
deriving DecidableEq, Repr

/-- Result of a `callApiEndpoint` run: the response plus the observable
effects (payment-table updates, ledger submissions, outbound HTTP calls). -/
structure CallResult where
  response : ApiResponse
  payments : List PaymentRecord
  ledgerCalls : List LedgerCall
  httpCalls : List HttpCall

/-- Environment of one `callApiEndpoint` run: the payment-gate environment,
the response the (opaque) payment-tool executor would give, and the response
the outbound HTTP client would give. -/
structure CallEnv where
  payEnv : PaymentEnv
  paymentToolResponse : String → ApiResponse
  httpResponse : ApiResponse

/-- A failure `ApiResponse` carrying only a message (no status code). -/
def failMsg (m : String) : ApiResponse :=
  { success := false, message := some m }

/-- Substitute `\x7bname\x7d` path parameters in the URL from the args. -/
def substPathParams (url : String) (args : Args) : String :=
  args.foldl (fun u e => u.replace ("\x7b" ++ e.1 ++ "\x7d") e.2) url

/-- `callApiEndpoint(endpointName, args, endUserId, developerId)`: the
payment-tool dispatch, endpoint lookup, payment gate, declared-parameter
validation, path substitution, read-method query filtering, and the outbound
call (modelled as an effect answered by the environment). -/
def callApiEndpoint (env : CallEnv) (endpoints : List APIEndpoint)
    (endpointName : String) (args : Args)
    (endUserId developerId : Option String)
    (payments : List PaymentRecord) : CallResult :=
  if paymentToolNames.contains endpointName then
    match endUserId with
    | none =>
      { response := failMsg "User authentication required for payment tools",
        payments := payments, ledgerCalls := [], httpCalls := [] }
    | some _ =>
      { response := env.paymentToolResponse endpointName,
        payments := payments, ledgerCalls := [], httpCalls := [] }
  else
    match endpoints.find? (fun e => e.name == endpointName) with
    | none =>
      { response := failMsg ("Endpoint '" ++ endpointName ++ "' not found"),
        payments := payments, ledgerCalls := [], httpCalls := [] }
    | some endpoint =>
      let gate : GateResult :=
        match endpoint.id, endUserId, developerId with
        | some _, some u, some d =>
          checkPaymentRequired env.payEnv endpoint u d args payments
        | _, _, _ =>
          { response := none, payments := payments, args := args,
            ledgerCalls := [], balanceChecked := false }
      match gate.response with
      | some r =>
        { response := r, payments := gate.payments,
          ledgerCalls := gate.ledgerCalls, httpCalls := [] }
      | none =>
        let args1 := gate.args
        match endpoint.parameters.find? (fun p =>
            p.required != some false && (List.lookup p.name args1).isNone) with
        | some missing =>
          { response :=
              failMsg ("Missing required parameter: " ++ missing.name),
            payments := gate.payments, ledgerCalls := gate.ledgerCalls,
            httpCalls := [] }
        | none =>
          let url := substPathParams endpoint.url args1
          let requestArgs :=
            if endpoint.method = .GET ∨ endpoint.method = .DELETE then
              args1.filter (fun e =>
                !((endpoint.url.splitOn ("\x7b" ++ e.1 ++ "\x7d")).length > 1))
            else args1
          let hc : HttpCall :=
            { method := endpoint.method, url := url,
              requestArgs := requestArgs }
          { response := env.httpResponse, payments := gate.payments,
            ledgerCalls := gate.ledgerCalls, httpCalls := [hc] }

/-! ## `executeApprovePayment` (`PaymentTools`) -/

/-- The object returned by `executeApprovePayment`.  Note it carries no HTTP
status code: payment-tool results are returned inside the MCP tool-call
envelope, not as an HTTP error response.  The long user-facing instruction
texts of the source are elided; fields the claims depend on are faithful. -/
structure ApproveResult where
  success : Bool
  payment_id : Option String := none
  amount : Option Rat := none
  status : Option String := none
  blockchain_tx_hash : Option String := none
  message : Option String := none
  error : Option String := none
  refunded : Option Bool := none
  refund_amount : Option Rat := none
  required_amount : Option Rat := none
  current_balance : Option Rat := none
  remaining_balance : Option Rat := none
deriving DecidableEq, Repr

/-- `executeApprovePayment` either returns a result object or throws. -/
inductive ApproveOutcome
  | thrown (msg : String)
  | result (r : ApproveResult)
deriving DecidableEq, Repr

/-- Environment of one `executeApprovePayment` run: whether the platform
signing key is configured, and the outcome of the ledger transfer plus
confirmation wait. -/
structure ApproveEnv where
  keyConfigured : Bool
  transfer : Except String String

/-- State after an `executeApprovePayment` run. -/
structure ApproveState where
  outcome : ApproveOutcome
  payments : List PaymentRecord
  balances : Balances

/-- The outer catch of `executeApprovePayment`: mark the payment failed (when
an id was supplied) and rethrow `Payment failed: ...`. -/
def approveThrow (payments : List PaymentRecord) (balances : Balances)
    (pid : Option String) (msg : String) : ApproveState :=
  { outcome := .thrown ("Payment failed: " ++ msg),
    payments := (match pid with
      | some p => markPaymentFailed payments p msg
      | none => payments),
    balances := balances }

/-- `executeApprovePayment(userId, args)`: ownership and status checks,
balance check, local pre-deduction, ledger submission, and on ledger failure
the compensating refund plus `failed` marking. -/
def executeApprovePayment (env : ApproveEnv) (userId : String)
    (argPaymentId : Option String) (payments : List PaymentRecord)
    (balances : Balances) : ApproveState :=
  match argPaymentId with
  | none => approveThrow payments balances none "payment_id is required"
  | some pid =>
    if pid == "" then
      approveThrow payments balances none "payment_id is required"
    else
      match getPaymentByPaymentId payments pid with
      | none => approveThrow payments balances (some pid) "Payment not found"
      | some payment =>
        if payment.user_id != userId then
          approveThrow payments balances (some pid)
            "Unauthorized: This payment belongs to another user"
        else if payment.status ≠ .pending then
          approveThrow payments balances (some pid)
            ("Payment cannot be processed. Current status: "
              ++ statusStr payment.status)
        else
          let currentBalance := getOrCreateBalance balances userId
          let paymentAmount := payment.amount_eth
          if currentBalance < paymentAmount then
            let r : ApproveResult :=
              { success := false, message := some "Insufficient balance",
                required_amount := some paymentAmount,
                current_balance := some currentBalance }
            { outcome := .result r, payments := payments,
              balances := balances }
          else
            let balances1 := deductPayment balances userId paymentAmount
            let payments1 := updatePaymentStatus payments pid .processing none
            let failCleanup := fun (e : String) =>
              let balances2 := addDeposit balances1 userId paymentAmount
              let payments2 := markPaymentFailed payments1 pid
                ("Blockchain transaction failed: " ++ e)
              let r : ApproveResult :=
                { success := false,
                  message := some ("Payment failed: " ++ e),
                  error := some e, refunded := some true,
                  refund_amount := some paymentAmount }
              ({ outcome := .result r, payments := payments2,
                 balances := balances2 } : ApproveState)
            if !env.keyConfigured then
              failCleanup "PLATFORM_WALLET_PRIVATE_KEY not configured"
            else
              match env.transfer with
              | .error e => failCleanup e
              | .ok txHash =>
                let payments2 := updatePaymentStatus payments1 pid
                  .completed (some txHash)
                let r : ApproveResult :=
                  { success := true, payment_id := some pid,
                    amount := some paymentAmount,
                    status := some "completed",
                    blockchain_tx_hash := some txHash,
                    message := some "Payment successful",
                    remaining_balance :=
                      some (currentBalance - paymentAmount) }
                { outcome := .result r, payments := payments2,
                  balances := balances1 }

/-! ## Concrete fixtures used by witnesses and counterexamples -/

/-- A provisioned, unrevoked client owned by `u1`. -/
def clientW : OAuthClient :=
  { client_id := "cid1", client_secret_hash := "hash1", user_id := some "u1",
    revoked := false, scopes := ["mcp:tools", "mcp:resources"],
    last_used_at := none }

/-- A live (unused, unexpired at time 500) authorization code bound to
`clientW` and `u1`. -/
def authCodeW : AuthorizationCode :=
  { code := "code1", user_id := "u1", client_id := "cid1",
    redirect_uri := "https://cb.example/oauth", code_challenge := "HV-ver1",
    code_challenge_method := "S256", scopes := ["mcp:tools", "mcp:resources"],
    expires_at := 1000, used := false }

/-- A store holding `clientW` and `authCodeW`. -/
def storeW : OAuthStore :=
  { clients := [clientW], authCodes := [authCodeW], refreshTokens := [] }

/-- Concrete abstract-crypto environment: the client secret `sec1` matches
hash `hash1`, and the PKCE hash of a verifier `v` is `HV-v`. -/
def envW : OAuthEnv :=
  { bcompare := fun sec h => sec == "sec1" && h == "hash1",
    pkceHash := fun v => "HV-" ++ v,
    shaHex := fun t => "SHA-" ++ t,
    secret := "jwtsecret", issuer := "http://localhost:3000" }

/-- A not-yet-owned dynamically registered client. -/
def dcrClientW : OAuthClient :=
  { client_id := "dcr_1", client_secret_hash := "hash2", user_id := none,
    revoked := false, scopes := ["mcp:tools", "mcp:resources"],
    last_used_at := none }

/-- A store holding only `dcrClientW`. -/
def storeDCRW : OAuthStore :=
  { clients := [dcrClientW], authCodes := [], refreshTokens := [] }

/-- C7: the claim is that code consumption and owner assignment are both
single atomic compare-and-swaps.  Owner assignment is (third conjunct: the
second of two assignments is a no-op), but `consumeAuthorizationCode` is a
read (`used = false` filter) followed by a separate unconditional write: under
the interleaving in which both reads run before either write, both
consumptions of the same live code return the code row, so both token
requests proceed to issue tokens (first conjunct).  Only strictly sequential
executions are single-use (second conjunct). -/
theorem consume_read_write_race :
    (consumeInterleaved storeW "code1" 500).1 = (some authCodeW, some authCodeW)
      ∧ (consumeAuthorizationCode
          (consumeAuthorizationCode storeW "code1" 500).2 "code1" 500).1 = none
      ∧ assignDCRClientToUser (assignDCRClientToUser storeDCRW "dcr_1" "uA")
          "dcr_1" "uB"
          = assignDCRClientToUser storeDCRW "dcr_1" "uA" := by
  refine ⟨?_, ?_, ?_⟩ <;> decide

/-- C8: a free endpoint (price 0) invoked without a payment reference passes
the payment gate untouched: no response is produced (invocation proceeds
immediately), no balance check happens, no ledger submission is attempted, and
the payment table is unchanged. -/
theorem gate_free_endpoint_noop (env : PaymentEnv) (endpoint : APIEndpoint)
    (endUserId developerId : String) (args : Args)
    (payments : List PaymentRecord)
    (hprice : endpoint.price_per_call_eth.getD 0 = 0)
    (_hnoref : List.lookup "_payment_id" args = none) :
    checkPaymentRequired env endpoint endUserId developerId args payments
      = { response := none, payments := payments, args := args,
          ledgerCalls := [], balanceChecked := false } := by
  unfold checkPaymentRequired
  rw [hprice]
  simp

/-- Witness for C8 at a concrete free endpoint. -/
def epFreeW : APIEndpoint :=
  { id := some "epF", name := "free_tool", url := "https://api.example/free",
    method := .GET, parameters := [], price_per_call_eth := some 0,
    developer_wallet_address := some "0xdev" }

/-- A payment-gate environment that would fund a transfer if one were
attempted (so the witness shows the gate really skipped everything). -/
def balInfoFreeW : UserBalanceInfo :=
  { has_balance_account := true, balance_object_id := some "balF",
    balance := 5 }

def payEnvFreeW : PaymentEnv :=
  { balanceInfo := some balInfoFreeW,
    ledger := .ok "0xtxF", freshPaymentId := "payF",
    platformWallet := "0xplat" }

theorem gate_free_endpoint_noop_witness :
    checkPaymentRequired payEnvFreeW epFreeW "u" "d" [] []
      = { response := none, payments := [], args := [],
          ledgerCalls := [], balanceChecked := false } :=
  gate_free_endpoint_noop payEnvFreeW epFreeW "u" "d" [] [] (by decide)
    (by decide)

/-! ## C10: gate-before-validation ordering in `callApiEndpoint` -/

/-- A priced endpoint with one required parameter `x`. -/
def epW10 : APIEndpoint :=
  { id := some "ep10", name := "tool10", url := "https://api.example/v1",
    method := .GET, parameters := [{ name := "x", required := none }],
    price_per_call_eth := some 1, developer_wallet_address := some "0xdev" }

/-- A funded caller whose ledger submission succeeds. -/
def balInfoW10 : UserBalanceInfo :=
  { has_balance_account := true, balance_object_id := some "bal10",
    balance := 5 }

def payEnvW10 : PaymentEnv :=
  { balanceInfo := some balInfoW10,
    ledger := .ok "0xtx10", freshPaymentId := "pay10",
    platformWallet := "0xplat" }

def callEnvW10 : CallEnv :=
  { payEnv := payEnvW10,
    paymentToolResponse := fun _ => { success := false },
    httpResponse := { success := true } }

/-- The completed PaymentRecord the run leaves behind. -/
def payRecW10 : PaymentRecord :=
  { payment_id := "pay10", user_id := "u10", endpoint_id := "ep10",
    from_wallet := "0xplat", to_wallet := "0xdev", amount_eth := 1,
    status := .completed, blockchain_tx_hash := some "0xtx10",
    error_message := none }

/-- C10: in `callApiEndpoint` the payment gate (including automatic
settlement) runs before required-parameter validation.  Invoking the priced
endpoint `tool10` without its required parameter `x` and without a payment
reference submits a ledger transfer and records a completed PaymentRecord,
yet the response is the missing-required-parameter failure and no outbound
HTTP call is made. -/
theorem charge_before_param_validation :
    (callApiEndpoint callEnvW10 [epW10] "tool10" [] (some "u10") (some "d10")
        []).response = failMsg "Missing required parameter: x"
      ∧ (callApiEndpoint callEnvW10 [epW10] "tool10" [] (some "u10")
          (some "d10") []).httpCalls = []
      ∧ (callApiEndpoint callEnvW10 [epW10] "tool10" [] (some "u10")
          (some "d10") []).ledgerCalls
          = [{ userBalanceId := "bal10", endpointId := "ep10", amount := 1,
               developerWallet := "0xdev" }]
      ∧ (callApiEndpoint callEnvW10 [epW10] "tool10" [] (some "u10")
          (some "d10") []).payments = [payRecW10] := by
  refine ⟨?_, ?_, ?_, ?_⟩ <;> decide

/-! ## C3: ledger failure — compensation and response shape -/

/-- A priced endpoint used by the C3 scenarios. -/
def epW3 : APIEndpoint :=
  { id := some "ep3", name := "tool3", url := "https://api.example/v3",
    method := .POST, parameters := [], price_per_call_eth := some 2,
    developer_wallet_address := some "0xdev3" }

/-- A funded caller whose ledger submission throws. -/
def balInfoW3 : UserBalanceInfo :=
  { has_balance_account := true, balance_object_id := some "bal3",
    balance := 10 }

def payEnvW3 : PaymentEnv :=
  { balanceInfo := some balInfoW3,
    ledger := .error "insufficient gas", freshPaymentId := "pay3",
    platformWallet := "0xplat" }

/-- Counterexample to C3 as stated: a settlement attempt whose ledger
submission fails is answered with HTTP 500, but the response carries no
`refunded: true` (the gate's automatic path applies no local pre-deduction
and its 500 body has no `refunded` key at all, only the error details). -/
theorem ledger_failure_no_refund_flag :
    ∃ r d, (checkPaymentRequired payEnvW3 epW3 "u3" "d3" [] []).response
        = some r
      ∧ r.status_code = some 500
      ∧ r.payment_details = some d
      ∧ d.refunded ≠ some true := by
  refine ⟨resp500d "Payment execution failed: insufficient gas"
    { error := some "insufficient gas", balance_object_id := some "bal3",
      endpoint_id := some "ep3", amount := some 2 },
    { error := some "insufficient gas", balance_object_id := some "bal3",
      endpoint_id := some "ep3", amount := some 2 }, ?_, ?_, ?_, ?_⟩
    <;> decide

/-- Writing a balance then reading it gives the written value. -/
theorem getOrCreateBalance_setBalance (bs : Balances) (uid : String) (v : Rat) :
    getOrCreateBalance (setBalance bs uid v) uid = v := by
  induction bs with
  | nil => simp [setBalance, getOrCreateBalance, List.lookup]
  | cons e rest ih =>
    by_cases h : e.1 = uid
    · simp [setBalance, getOrCreateBalance, List.lookup, h]
    · have hb : (uid == e.1) = false := by
        simp [Ne.symm h]
      have hb2 : (e.1 == uid) = false := by
        simp [h]
      simp only [setBalance, hb2, Bool.false_eq_true, if_false]
      simp only [getOrCreateBalance, List.lookup, hb] at ih ⊢
      exact ih

/-- Reversing a pre-deduction restores the read balance. -/
theorem balance_refund_roundtrip (bs : Balances) (uid : String) (a : Rat) :
    getOrCreateBalance (addDeposit (deductPayment bs uid a) uid a) uid
      = getOrCreateBalance bs uid := by
  simp [addDeposit, deductPayment, getOrCreateBalance_setBalance,
    sub_add_cancel]

/-- `find?` commutes with mapping a function that does not change the
predicate. -/
theorem find?_map_pres {α : Type} (f : α → α) (p : α → Bool)
    (hf : ∀ a, p (f a) = p a) (l : List α) :
    (l.map f).find? p = (l.find? p).map f := by
  induction l with
  | nil => rfl
  | cons a t ih =>
    cases hpa : p a with
    | true => simp [List.find?, hf a, hpa]
    | false => simp [List.find?, hf a, hpa, ih]

/-- Looking up the updated id after `updatePaymentStatus` sees the update. -/
theorem getPayment_updateStatus (ps : List PaymentRecord) (pid : String)
    (st : PayStatus) (tx : Option String) :
    getPaymentByPaymentId (updatePaymentStatus ps pid st tx) pid
      = (getPaymentByPaymentId ps pid).map (fun p =>
          { p with
              status := st,
              blockchain_tx_hash := (match tx with
                | some h => some h
                | none => p.blockchain_tx_hash) }) := by
  have hf : ∀ a : PaymentRecord,
      ((if a.payment_id == pid then
          ({ a with
              status := st,
              blockchain_tx_hash := (match tx with
                | some h => some h
                | none => a.blockchain_tx_hash) } : PaymentRecord)
        else a).payment_id == pid) = (a.payment_id == pid) := by
    intro a
    by_cases h : a.payment_id = pid <;> simp [h]
  unfold updatePaymentStatus getPaymentByPaymentId
  rw [find?_map_pres _ _ hf]
  cases hfind : List.find? (fun p => p.payment_id == pid) ps with
  | none => rfl
  | some a =>
    have ha := List.find?_some hfind
    simp only [beq_iff_eq] at ha
    simp [ha]

/-- Looking up the updated id after `markPaymentFailed` sees the update. -/
theorem getPayment_markFailed (ps : List PaymentRecord) (pid msg : String) :
    getPaymentByPaymentId (markPaymentFailed ps pid msg) pid
      = (getPaymentByPaymentId ps pid).map (fun p =>
          { p with
              status := .failed,
              error_message := some msg }) := by
  have hf : ∀ a : PaymentRecord,
      ((if a.payment_id == pid then
          ({ a with
              status := .failed,
              error_message := some msg } : PaymentRecord)
        else a).payment_id == pid) = (a.payment_id == pid) := by
    intro a
    by_cases h : a.payment_id = pid <;> simp [h]
  unfold markPaymentFailed getPaymentByPaymentId
  rw [find?_map_pres _ _ hf]
  cases hfind : List.find? (fun p => p.payment_id == pid) ps with
  | none => rfl
  | some a =>
    have ha := List.find?_some hfind
    simp only [beq_iff_eq] at ha
    simp [ha]

/-- C3 (amended): when the ledger submission fails, the automatic-settlement
path of the gate responds 500 with the error text, creates no PaymentRecord,
applies no local pre-deduction and therefore reports no refund — its
`payment_details` carry only the error context, never `refunded: true`
(first conjunct); the `approve_payment` path does pre-deduct locally, and on
ledger failure reverses the deduction exactly, marks the PaymentRecord
`failed` with the error text, and returns a failure result carrying
`refunded: true` and the refunded amount — as a tool result, not an HTTP 500
response (second conjunct). -/
theorem ledger_failure_compensation :
    (∀ (env : PaymentEnv) (endpoint : APIEndpoint) (u d : String) (args : Args)
        (payments : List PaymentRecord) (ub : UserBalanceInfo) (e : String),
      0 < endpoint.price_per_call_eth.getD 0 →
      List.lookup "_payment_id" args = none →
      env.balanceInfo = some ub →
      ub.has_balance_account = true →
      ¬ ub.balance < endpoint.price_per_call_eth.getD 0 →
      env.ledger = .error e →
      (checkPaymentRequired env endpoint u d args payments).payments = payments
        ∧ (checkPaymentRequired env endpoint u d args payments).response
            = some (resp500d ("Payment execution failed: " ++ e)
                { error := some e,
                  balance_object_id := ub.balance_object_id,
                  endpoint_id := some (endpoint.id.getD endpoint.name),
                  amount := some (endpoint.price_per_call_eth.getD 0) }))
    ∧ (∀ (env : ApproveEnv) (uid pid e : String)
        (payments : List PaymentRecord) (balances : Balances)
        (payment : PaymentRecord),
      env.keyConfigured = true →
      env.transfer = .error e →
      pid ≠ "" →
      getPaymentByPaymentId payments pid = some payment →
      payment.user_id = uid →
      payment.status = .pending →
      ¬ getOrCreateBalance balances uid < payment.amount_eth →
      (executeApprovePayment env uid (some pid) payments balances).outcome
          = .result
              { success := false,
                message := some ("Payment failed: " ++ e), error := some e,
                refunded := some true,
                refund_amount := some payment.amount_eth }
        ∧ getOrCreateBalance
              (executeApprovePayment env uid (some pid) payments
                balances).balances uid
            = getOrCreateBalance balances uid
        ∧ (getPaymentByPaymentId
              (executeApprovePayment env uid (some pid) payments
                balances).payments pid).map
              (fun p => (p.status, p.error_message))
            = some (.failed,
                some ("Blockchain transaction failed: " ++ e))) := by
  constructor
  · intro env endpoint u d args payments ub e hprice hlookup hbal hacct
      hfunds hledger
    have hnle : ¬ endpoint.price_per_call_eth.getD 0 ≤ 0 := not_le.mpr hprice
    unfold checkPaymentRequired
    rw [hlookup, hbal, hledger]
    simp [hnle, hacct, hfunds]
  · intro env uid pid e payments balances payment hkey htransfer hpid hfind
      huser hstatus hfunds
    have hpidb : (pid == "") = false := by
      simpa using hpid
    have h1 : (payment.user_id != uid) = false := by
      simp [huser]
    have h4 : (!env.keyConfigured) = false := by
      simp [hkey]
    simp only [executeApprovePayment, hpidb, Bool.false_eq_true, if_false,
      hfind, h1, h4, htransfer, ne_eq, hstatus, not_true_eq_false, hfunds]
    refine ⟨trivial, ?_, ?_⟩
    · exact balance_refund_roundtrip balances uid payment.amount_eth
    · rw [getPayment_markFailed, getPayment_updateStatus, hfind]
      rfl

/-- Witness fixtures for the approve-payment half of C3. -/
def approveEnvW : ApproveEnv :=
  { keyConfigured := true, transfer := .error "rpc down" }

def payRecPendingW : PaymentRecord :=
  { payment_id := "pay5", user_id := "u5", endpoint_id := "ep5",
    from_wallet := "0xplat", to_wallet := "0xdev5", amount_eth := 2,
    status := .pending, blockchain_tx_hash := none, error_message := none }

def balancesW : Balances := [("u5", 10)]

theorem ledger_failure_compensation_witness :
    (checkPaymentRequired payEnvW3 epW3 "u3" "d3" [] []).payments = []
      ∧ getOrCreateBalance
          (executeApprovePayment approveEnvW "u5" (some "pay5")
            [payRecPendingW] balancesW).balances "u5" = 10
      ∧ (getPaymentByPaymentId
            (executeApprovePayment approveEnvW "u5" (some "pay5")
              [payRecPendingW] balancesW).payments "pay5").map
            (fun p => (p.status, p.error_message))
          = some (.failed, some "Blockchain transaction failed: rpc down") := by
  have hA := ledger_failure_compensation.1 payEnvW3 epW3 "u3" "d3" [] []
    balInfoW3 "insufficient gas" (by decide) rfl rfl rfl (by decide) rfl
  have hB := ledger_failure_compensation.2 approveEnvW "u5" "pay5" "rpc down"
    [payRecPendingW] balancesW payRecPendingW rfl rfl (by decide) rfl rfl rfl
    (by decide)
  refine ⟨hA.1, ?_, hB.2.2⟩
  rw [hB.2.1]
  decide

/-- The payment-reference branch of the gate, as a standalone function of the
store (proof-internal normal form of `checkPaymentRequired` when a reference
is supplied). -/
def gateRefSpec (endpoint : APIEndpoint) (endUserId : String) (args : Args)
    (payments : List PaymentRecord) (pid : String) : GateResult :=
  let endpointId := endpoint.id.getD endpoint.name
  let noop := fun (r : ApiResponse) =>
    ({ response := some r, payments := payments, args := args,
       ledgerCalls := [], balanceChecked := false } : GateResult)
  match getPaymentByPaymentId payments pid with
  | none => noop (resp402 "Invalid payment_id provided")
  | some payment =>
    if payment.user_id != endUserId then
      noop (resp402 "Unauthorized: payment_id belongs to another user")
    else if payment.endpoint_id != endpointId then
      noop (resp402 "payment_id is for a different endpoint")
    else if payment.status = .completed then
      { response := none, payments := payments,
        args := args.filter (fun e => e.1 != "_payment_id"),
        ledgerCalls := [], balanceChecked := false }
    else
      noop (resp402d ("Payment " ++ pid ++ " status is "
          ++ statusStr payment.status ++ ", not completed")
        { payment_id := some pid, status := some payment.status,
          message := some (if payment.status = .pending then
              "Call approve_payment tool to complete this payment"
            else "Payment status: " ++ statusStr payment.status
              ++ ". Cannot proceed.") })

/-- With a price and a (non-empty) payment reference, the gate runs exactly
its reference branch. -/
theorem gate_ref_eq (env : PaymentEnv) (endpoint : APIEndpoint)
    (endUserId developerId : String) (args : Args)
    (payments : List PaymentRecord) (pid : String)
    (hprice : 0 < endpoint.price_per_call_eth.getD 0)
    (href : List.lookup "_payment_id" args = some pid)
    (hpid : pid ≠ "") :
    checkPaymentRequired env endpoint endUserId developerId args payments
      = gateRefSpec endpoint endUserId args payments pid := by
  have hple : ¬ endpoint.price_per_call_eth.getD 0 ≤ 0 := not_le.mpr hprice
  have hb : (pid != "") = true := by
    simpa using hpid
  unfold checkPaymentRequired gateRefSpec
  rw [href]
  simp only [Option.getD_some, hple, if_false, hb, if_true]

/-- Every leaf of the reference branch leaves the payment table untouched and
submits nothing to the ledger. -/
theorem gateRefSpec_fields (endpoint : APIEndpoint) (endUserId : String)
    (args : Args) (payments : List PaymentRecord) (pid : String) :
    (gateRefSpec endpoint endUserId args payments pid).ledgerCalls = []
      ∧ (gateRefSpec endpoint endUserId args payments pid).payments = payments
      ∧ (gateRefSpec endpoint endUserId args payments pid).balanceChecked
          = false := by
  unfold gateRefSpec
  cases hfind : getPaymentByPaymentId payments pid with
  | none => exact ⟨rfl, rfl, rfl⟩
  | some payment =>
    dsimp only
    split
    · exact ⟨rfl, rfl, rfl⟩
    · split
      · exact ⟨rfl, rfl, rfl⟩
      · split
        · exact ⟨rfl, rfl, rfl⟩
        · exact ⟨rfl, rfl, rfl⟩

/-- C2: when the gate is invoked on a priced tool with a prior payment
reference it never submits a ledger transfer, never consults the balance and
never touches the payment table; an unknown reference, a record owned by
another user, a record for a different tool, and a record not yet completed
each produce HTTP 402 with their own distinct reason, the last also reporting
the record's current status; a record that belongs to the caller, targets
this tool and is completed lets invocation proceed with no charge — and
repeating the gate with that same reference again proceeds with no charge, so
no second transfer ever happens. -/
theorem gate_payment_reference (env : PaymentEnv) (endpoint : APIEndpoint)
    (endUserId developerId : String) (args : Args)
    (payments : List PaymentRecord) (pid : String)
    (hprice : 0 < endpoint.price_per_call_eth.getD 0)
    (href : List.lookup "_payment_id" args = some pid)
    (hpid : pid ≠ "") :
    ((checkPaymentRequired env endpoint endUserId developerId args
          payments).ledgerCalls = []
      ∧ (checkPaymentRequired env endpoint endUserId developerId args
          payments).payments = payments
      ∧ (checkPaymentRequired env endpoint endUserId developerId args
          payments).balanceChecked = false)
    ∧ (getPaymentByPaymentId payments pid = none →
        (checkPaymentRequired env endpoint endUserId developerId args
            payments).response = some (resp402 "Invalid payment_id provided"))
    ∧ (∀ payment, getPaymentByPaymentId payments pid = some payment →
        (payment.user_id ≠ endUserId →
          (checkPaymentRequired env endpoint endUserId developerId args
              payments).response
            = some (resp402 "Unauthorized: payment_id belongs to another user"))
        ∧ (payment.user_id = endUserId →
            payment.endpoint_id ≠ endpoint.id.getD endpoint.name →
            (checkPaymentRequired env endpoint endUserId developerId args
                payments).response
              = some (resp402 "payment_id is for a different endpoint"))
        ∧ (payment.user_id = endUserId →
            payment.endpoint_id = endpoint.id.getD endpoint.name →
            payment.status ≠ .completed →
            ∃ d, (checkPaymentRequired env endpoint endUserId developerId args
                  payments).response
                = some (resp402d ("Payment " ++ pid ++ " status is "
                    ++ statusStr payment.status ++ ", not completed") d)
              ∧ d.status = some payment.status)
        ∧ (payment.user_id = endUserId →
            payment.endpoint_id = endpoint.id.getD endpoint.name →
            payment.status = .completed →
            (checkPaymentRequired env endpoint endUserId developerId args
                payments).response = none
            ∧ (checkPaymentRequired env endpoint endUserId developerId args
                (checkPaymentRequired env endpoint endUserId developerId args
                  payments).payments).response = none
            ∧ (checkPaymentRequired env endpoint endUserId developerId args
                (checkPaymentRequired env endpoint endUserId developerId args
                  payments).payments).ledgerCalls = [])) := by
  have hg := gate_ref_eq env endpoint endUserId developerId args payments pid
    hprice href hpid
  have hfields := gateRefSpec_fields endpoint endUserId args payments pid
  refine ⟨?_, ?_, ?_⟩
  · rw [hg]
    exact ⟨hfields.1, hfields.2.1, hfields.2.2⟩
  · intro hnone
    rw [hg]
    unfold gateRefSpec
    simp only [hnone]
  · intro payment hfind
    refine ⟨?_, ?_, ?_, ?_⟩
    · intro hne
      have hb : (payment.user_id != endUserId) = true := by
        simpa using hne
      rw [hg]
      unfold gateRefSpec
      simp only [hfind, hb, if_true]
    · intro hu hne
      have hb1 : (payment.user_id != endUserId) = false := by
        simp [hu]
      have hb2 : (payment.endpoint_id != endpoint.id.getD endpoint.name)
          = true := by
        simpa using hne
      rw [hg]
      unfold gateRefSpec
      simp only [hfind, hb1, Bool.false_eq_true, if_false, hb2, if_true]
    · intro hu he hs
      have hb1 : (payment.user_id != endUserId) = false := by
        simp [hu]
      have hb2 : (payment.endpoint_id != endpoint.id.getD endpoint.name)
          = false := by
        simp [he]
      rw [hg]
      unfold gateRefSpec
      simp only [hfind, hb1, hb2, Bool.false_eq_true, if_false]
      rw [if_neg hs]
      exact ⟨_, rfl, rfl⟩
    · intro hu he hs
      have hb1 : (payment.user_id != endUserId) = false := by
        simp [hu]
      have hb2 : (payment.endpoint_id != endpoint.id.getD endpoint.name)
          = false := by
        simp [he]
      rw [hg, hfields.2.1, hg]
      have hresp : (gateRefSpec endpoint endUserId args payments pid).response
          = none := by
        unfold gateRefSpec
        simp only [hfind, hb1, hb2, Bool.false_eq_true, if_false]
        rw [if_pos hs]
      exact ⟨hresp, hresp, hfields.1⟩

/-- Witness fixtures for C2: a completed payment for caller `u2` on `ep2`. -/
def epW2 : APIEndpoint :=
  { id := some "ep2", name := "tool2", url := "https://api.example/v2",
    method := .GET, parameters := [], price_per_call_eth := some 1,
    developer_wallet_address := some "0xdev2" }

def payRecCompletedW : PaymentRecord :=
  { payment_id := "pay2", user_id := "u2", endpoint_id := "ep2",
    from_wallet := "0xplat", to_wallet := "0xdev2", amount_eth := 1,
    status := .completed, blockchain_tx_hash := some "0xtx2",
    error_message := none }

def argsW2 : Args := [("_payment_id", "pay2")]

/-- An environment the reference branch must never consult. -/
def payEnvW2 : PaymentEnv :=
  { balanceInfo := none, ledger := .error "unreachable",
    freshPaymentId := "payX", platformWallet := "0xplat" }

theorem gate_payment_reference_witness :
    (checkPaymentRequired payEnvW2 epW2 "u2" "d2" argsW2
        [payRecCompletedW]).response = none
      ∧ (checkPaymentRequired payEnvW2 epW2 "u2" "d2" argsW2
          [payRecCompletedW]).ledgerCalls = []
      ∧ (checkPaymentRequired payEnvW2 epW2 "u2" "d2" argsW2
          (checkPaymentRequired payEnvW2 epW2 "u2" "d2" argsW2
            [payRecCompletedW]).payments).response = none := by
  have h := gate_payment_reference payEnvW2 epW2 "u2" "d2" argsW2
    [payRecCompletedW] "pay2" (by decide) rfl (by decide)
  have h4 := (h.2.2 payRecCompletedW rfl).2.2.2 rfl rfl rfl
  exact ⟨h4.1, h.1.1, h4.2.1⟩

/-! ## C5: audience pinning -/

/-- C5: a token whose audience claim does not include the resource's own
identifier `"mcp"` (or is missing) is rejected by `verifyAccessToken`
whatever its signature, issuer and expiry, and the Auth Gate then answers
401 `invalid_token`. -/
theorem audience_pinning (secret issuer : String) (now : Nat) (tok : SignedJWT)
    (haud : ∀ l, tok.payload.aud = some l → "mcp" ∉ l) :
    verifyAccessToken secret issuer now tok = none
      ∧ ∀ (baseUrl : String) (lookupTok : String → SignedJWT)
          (userDir : String → Bool) (hdr : String),
          strStartsWith hdr "Bearer " = true →
          lookupTok (hdr.drop 7) = tok →
          verifyMCPToken secret issuer baseUrl lookupTok userDir now (some hdr)
            = .reject 401 (some "Bearer realm=\"mcp\", error=\"invalid_token\"")
                "invalid_token" "Token validation failed" := by
  have hver : verifyAccessToken secret issuer now tok = none := by
    unfold verifyAccessToken jwtVerify
    cases haudc : tok.payload.aud with
    | none => simp [haudc]
    | some l =>
      simp [haudc, haud l haudc]
  refine ⟨hver, ?_⟩
  intro baseUrl lookupTok userDir hdr hpre hlook
  unfold verifyMCPToken
  simp only [hpre, Bool.not_true, Bool.false_eq_true, if_false, hlook, hver]

/-- An otherwise-valid token (good signature, issuer, expiry, type, scope)
minted for a different resource. -/
def payloadW5 : JWTPayload :=
  { sub := "u5", scope := "mcp:tools", client_id := "cid5",
    iss := "http://localhost:3000", aud := some ["other-resource"],
    exp := some 1000, iat := 0, type := some "access" }

def tokW5 : SignedJWT :=
  { payload := payloadW5, signedWith := "jwtsecret" }

theorem audience_pinning_witness :
    verifyAccessToken "jwtsecret" "http://localhost:3000" 10 tokW5 = none
      ∧ verifyMCPToken "jwtsecret" "http://localhost:3000" "http://b"
          (fun _ => tokW5) (fun _ => true) 10 (some "Bearer T")
          = .reject 401 (some "Bearer realm=\"mcp\", error=\"invalid_token\"")
              "invalid_token" "Token validation failed" := by
  have haud : ∀ l, tokW5.payload.aud = some l → "mcp" ∉ l := by
    intro l hl
    simp only [show tokW5.payload.aud = some ["other-resource"] from rfl,
      Option.some.injEq] at hl
    subst hl
    decide
  have h := audience_pinning "jwtsecret" "http://localhost:3000" 10 tokW5 haud
  exact ⟨h.1, h.2 "http://b" (fun _ => tokW5) (fun _ => true) "Bearer T"
    (by decide) rfl⟩

/-! ## C9: auth-gate dispatch -/

/-- A payload the library verified is not yet expired, so the middleware's
redundant expiry re-check can never fire. -/
theorem jwtVerify_exp {tok : SignedJWT} {secret issuer aud : String}
    {now : Nat} {d : JWTPayload}
    (h : jwtVerify tok secret issuer aud now = some d) :
    (match d.exp with
      | some e => decide (e < now)
      | none => false) = false := by
  unfold jwtVerify at h
  split at h
  · rename_i hcond
    obtain rfl : tok.payload = d := Option.some.inj h
    simp only [Bool.and_eq_true] at hcond
    have hexp := hcond.2
    cases he : tok.payload.exp with
    | none => simp
    | some e =>
      rw [he] at hexp
      simp only [decide_eq_true_eq] at hexp
      simp [Nat.not_lt.mpr (Nat.le_of_lt hexp)]
  · exact absurd h (by simp)

/-- `verifyAccessToken` only ever returns the payload `jwt.verify` produced. -/
theorem verifyAccessToken_some {secret issuer : String} {now : Nat}
    {tok : SignedJWT} {d : JWTPayload}
    (h : verifyAccessToken secret issuer now tok = some d) :
    jwtVerify tok secret issuer "mcp" now = some d := by
  unfold verifyAccessToken at h
  cases hjv : jwtVerify tok secret issuer "mcp" now with
  | none => rw [hjv] at h; exact absurd h (by simp)
  | some d0 =>
    simp only [hjv] at h
    have hd : d0 = d := by
      split at h
      · exact absurd h (by simp)
      · split at h
        · exact absurd h (by simp)
        · split at h
          · exact Option.some.inj h
          · exact absurd h (by simp)
    rw [← hd]

/-- C9: the Auth Gate's response map.  A missing Authorization header gives
401 with a challenge naming the protected-resource discovery document; a
non-Bearer scheme gives 401 `invalid_token`; a token the codec rejects gives
401 `invalid_token`; a verified token lacking the `mcp:tools` scope gives 403
`insufficient_scope`; and a request proceeds only when all of these checks
passed, with the token's subject, split scopes and client id attached. -/
theorem auth_gate_dispatch (secret issuer baseUrl : String)
    (lookupTok : String → SignedJWT) (userDir : String → Bool) (now : Nat) :
    (verifyMCPToken secret issuer baseUrl lookupTok userDir now none
        = .reject 401 (some (mcpChallenge baseUrl)) "unauthorized"
            "Authorization required for MCP access")
    ∧ (∀ hdr, strStartsWith hdr "Bearer " = false →
        verifyMCPToken secret issuer baseUrl lookupTok userDir now (some hdr)
          = .reject 401 (some (mcpChallenge baseUrl)) "invalid_token"
              "Invalid authorization header format")
    ∧ (∀ hdr, strStartsWith hdr "Bearer " = true →
        verifyAccessToken secret issuer now (lookupTok (hdr.drop 7)) = none →
        verifyMCPToken secret issuer baseUrl lookupTok userDir now (some hdr)
          = .reject 401 (some "Bearer realm=\"mcp\", error=\"invalid_token\"")
              "invalid_token" "Token validation failed")
    ∧ (∀ hdr decoded, strStartsWith hdr "Bearer " = true →
        verifyAccessToken secret issuer now (lookupTok (hdr.drop 7))
            = some decoded →
        hasRequiredScopes decoded.scope ["mcp:tools"] = false →
        verifyMCPToken secret issuer baseUrl lookupTok userDir now (some hdr)
          = .reject 403 none "insufficient_scope"
              "Token lacks required mcp:tools scope")
    ∧ (∀ hdr p sc cid,
        verifyMCPToken secret issuer baseUrl lookupTok userDir now (some hdr)
            = .proceed p sc cid →
        ∃ decoded, strStartsWith hdr "Bearer " = true
          ∧ verifyAccessToken secret issuer now (lookupTok (hdr.drop 7))
              = some decoded
          ∧ hasRequiredScopes decoded.scope ["mcp:tools"] = true
          ∧ userDir decoded.sub = true
          ∧ p = decoded.sub ∧ sc = splitOnSpaceStr decoded.scope
          ∧ cid = decoded.client_id) := by
  refine ⟨rfl, ?_, ?_, ?_, ?_⟩
  · intro hdr hpre
    simp only [verifyMCPToken, hpre, Bool.not_false, if_true]
  · intro hdr hpre hver
    simp only [verifyMCPToken, hpre, Bool.not_true, Bool.false_eq_true,
      if_false, hver]
  · intro hdr decoded hpre hver hscope
    have hexp := jwtVerify_exp (verifyAccessToken_some hver)
    simp only [verifyMCPToken, hpre, Bool.not_true, Bool.false_eq_true,
      if_false, hver, hexp, hscope, Bool.not_false, if_true]
  · intro hdr p sc cid h
    simp only [verifyMCPToken] at h
    cases hpre : strStartsWith hdr "Bearer " with
    | false =>
      simp only [hpre, Bool.not_false, if_true] at h
      simp at h
    | true =>
      simp only [hpre, Bool.not_true, Bool.false_eq_true, if_false] at h
      cases hver : verifyAccessToken secret issuer now (lookupTok (hdr.drop 7))
        with
      | none =>
        simp only [hver] at h
        simp at h
      | some decoded =>
        simp only [hver] at h
        refine ⟨decoded, rfl, rfl, ?_⟩
        split at h
        · simp at h
        · split at h
          · simp at h
          · split at h
            · simp at h
            · rename_i hscope0 hdir0
              have hscope : hasRequiredScopes decoded.scope ["mcp:tools"]
                  = true := by
                simpa using hscope0
              have hdir : userDir decoded.sub = true := by
                simpa using hdir0
              simp only [MCPAuthResult.proceed.injEq] at h
              obtain ⟨h1, h2, h3⟩ := h
              exact ⟨hscope, hdir, h1.symm, h2.symm, h3.symm⟩

/-- Witness tokens for C9. -/
def payloadW9 : JWTPayload :=
  { sub := "u9", scope := "mcp:tools mcp:resources", client_id := "cid9",
    iss := "iss9", aud := some ["mcp"], exp := some 1000, iat := 0,
    type := some "access" }

def tokW9 : SignedJWT := { payload := payloadW9, signedWith := "sec9" }

def payloadW9ns : JWTPayload :=
  { sub := "u9", scope := "mcp:resources", client_id := "cid9",
    iss := "iss9", aud := some ["mcp"], exp := some 1000, iat := 0,
    type := some "access" }

def tokW9ns : SignedJWT := { payload := payloadW9ns, signedWith := "sec9" }

def tokW9bad : SignedJWT := { payload := payloadW9, signedWith := "wrong" }

theorem auth_gate_dispatch_witness :
    (verifyMCPToken "sec9" "iss9" "http://b" (fun _ => tokW9) (fun _ => true)
        10 none
      = .reject 401 (some (mcpChallenge "http://b")) "unauthorized"
          "Authorization required for MCP access")
    ∧ (verifyMCPToken "sec9" "iss9" "http://b" (fun _ => tokW9)
        (fun _ => true) 10 (some "Basic abc")
      = .reject 401 (some (mcpChallenge "http://b")) "invalid_token"
          "Invalid authorization header format")
    ∧ (verifyMCPToken "sec9" "iss9" "http://b" (fun _ => tokW9bad)
        (fun _ => true) 10 (some "Bearer t")
      = .reject 401 (some "Bearer realm=\"mcp\", error=\"invalid_token\"")
          "invalid_token" "Token validation failed")
    ∧ (verifyMCPToken "sec9" "iss9" "http://b" (fun _ => tokW9ns)
        (fun _ => true) 10 (some "Bearer t")
      = .reject 403 none "insufficient_scope"
          "Token lacks required mcp:tools scope")
    ∧ (∃ decoded, strStartsWith "Bearer t" "Bearer " = true
        ∧ verifyAccessToken "sec9" "iss9" 10 tokW9 = some decoded
        ∧ hasRequiredScopes decoded.scope ["mcp:tools"] = true
        ∧ (fun (_ : String) => true) decoded.sub = true
        ∧ "u9" = decoded.sub
        ∧ ["mcp:tools", "mcp:resources"] = splitOnSpaceStr decoded.scope
        ∧ "cid9" = decoded.client_id) :=
  ⟨(auth_gate_dispatch "sec9" "iss9" "http://b" (fun _ => tokW9)
      (fun _ => true) 10).1,
    (auth_gate_dispatch "sec9" "iss9" "http://b" (fun _ => tokW9)
      (fun _ => true) 10).2.1 "Basic abc" (by decide),
    (auth_gate_dispatch "sec9" "iss9" "http://b" (fun _ => tokW9bad)
      (fun _ => true) 10).2.2.1 "Bearer t" (by decide) (by decide),
    (auth_gate_dispatch "sec9" "iss9" "http://b" (fun _ => tokW9ns)
      (fun _ => true) 10).2.2.2.1 "Bearer t" payloadW9ns (by decide)
      (by decide) (by decide),
    (auth_gate_dispatch "sec9" "iss9" "http://b" (fun _ => tokW9)
      (fun _ => true) 10).2.2.2.2 "Bearer t" "u9"
      ["mcp:tools", "mcp:resources"] "cid9" (by decide)⟩

/-! ## C4: PKCE gates the exchange -/

/-- A well-formed exchange request reduces the endpoint to its
authorization-code branch. -/
theorem tokenStep_authCode (env : OAuthEnv) (s : OAuthStore) (k : TokenCall)
    (c : String) (hwf : wfExchangeReq k.req c) :
    tokenStep env s k = tokenAuthCodeExchange env s k := by
  obtain ⟨hg, hc, hcne, hru, hci, hcs, hcv⟩ := hwf
  have h1 : strPresent k.req.code = true := by
    rw [hc]
    simpa [strPresent] using hcne
  unfold tokenStep
  simp only [hg, beq_self_eq_true, h1, hru, hci, hcs, hcv, Bool.and_self,
    Bool.not_true, Bool.false_eq_true, if_false, if_true]

/-- C4: under valid client credentials and a live code bound to this client
(with matching ownership and redirect URI), the exchange succeeds exactly
when the hashed verifier equals the stored challenge, and any other verifier
gets `invalid_grant` (first part); when the code is consumed, expired or
unknown, the exchange gets `invalid_grant` no matter the verifier (second
part). -/
theorem pkce_exchange (env : OAuthEnv) (s : OAuthStore) (k : TokenCall)
    (c : String) (hwf : wfExchangeReq k.req c) :
    (∀ client authCode,
      verifyOAuthClient env.bcompare s (k.req.client_id.getD "")
          (k.req.client_secret.getD "") = some client →
      consumeRead s c k.now = some authCode →
      authCode.client_id = k.req.client_id.getD "" →
      client.user_id = some authCode.user_id →
      authCode.redirect_uri = k.req.redirect_uri.getD "" →
      ((isSuccess (tokenStep env s k).1 = true
          ↔ env.pkceHash (k.req.code_verifier.getD "")
              = authCode.code_challenge)
        ∧ (env.pkceHash (k.req.code_verifier.getD "")
              ≠ authCode.code_challenge →
            (tokenStep env s k).1
              = .error 400 "invalid_grant" "Invalid code_verifier")))
    ∧ (∀ client,
      verifyOAuthClient env.bcompare s (k.req.client_id.getD "")
          (k.req.client_secret.getD "") = some client →
      consumeRead s c k.now = none →
      (tokenStep env s k).1
        = .error 400 "invalid_grant"
            "Invalid or expired authorization code") := by
  have hstep := tokenStep_authCode env s k c hwf
  obtain ⟨hg, hc, hcne, hru, hci, hcs, hcv⟩ := hwf
  constructor
  · intro client authCode hclient hread hcid huid hredir
    have hb1 : (authCode.client_id != k.req.client_id.getD "") = false := by
      simp [hcid]
    have hb2 : (client.user_id != some authCode.user_id) = false := by
      simp [huid]
    have hb3 : (authCode.redirect_uri != k.req.redirect_uri.getD "")
        = false := by
      simp [hredir]
    rw [hstep]
    unfold tokenAuthCodeExchange consumeAuthorizationCode
    rw [hc]
    simp only [Option.getD_some, hread, hclient, hb1, hb2, hb3,
      Bool.false_eq_true, if_false]
    by_cases hpk : env.pkceHash (k.req.code_verifier.getD "")
        = authCode.code_challenge
    · have hb4 : (env.pkceHash (k.req.code_verifier.getD "")
          != authCode.code_challenge) = false := by
        simp [hpk]
      simp only [hb4, Bool.false_eq_true, if_false]
      exact ⟨by simp [isSuccess, hpk], fun hne => absurd hpk hne⟩
    · have hb4 : (env.pkceHash (k.req.code_verifier.getD "")
          != authCode.code_challenge) = true := by
        simpa using hpk
      simp only [hb4, if_true]
      exact ⟨by simp [isSuccess, hpk], by simp⟩
  · intro client hclient hread
    rw [hstep]
    unfold tokenAuthCodeExchange consumeAuthorizationCode
    rw [hc]
    simp only [Option.getD_some, hread, hclient]

/-- A well-formed exchange request for `authCodeW`'s code with verifier `v`. -/
def reqW (v : String) : TokenRequest :=
  { grant_type := some "authorization_code", code := some "code1",
    redirect_uri := some "https://cb.example/oauth", client_id := some "cid1",
    client_secret := some "sec1", code_verifier := some v,
    refresh_token := none }

def kW (v fresh : String) : TokenCall :=
  { req := reqW v, now := 500, freshRefresh := fresh }

theorem pkce_exchange_witness :
    isSuccess (tokenStep envW storeW (kW "ver1" "fresh1")).1 = true
      ∧ (tokenStep envW storeW (kW "evil" "fresh2")).1
          = .error 400 "invalid_grant" "Invalid code_verifier" := by
  have hwf1 : wfExchangeReq (kW "ver1" "fresh1").req "code1" :=
    ⟨rfl, rfl, by decide, by decide, by decide, by decide, by decide⟩
  have hwf2 : wfExchangeReq (kW "evil" "fresh2").req "code1" :=
    ⟨rfl, rfl, by decide, by decide, by decide, by decide, by decide⟩
  have h1 := (pkce_exchange envW storeW (kW "ver1" "fresh1") "code1" hwf1).1
    clientW authCodeW (by decide) (by decide) rfl rfl rfl
  have h2 := (pkce_exchange envW storeW (kW "evil" "fresh2") "code1" hwf2).1
    clientW authCodeW (by decide) (by decide) rfl rfl rfl
  exact ⟨h1.1.mpr (by decide), h2.2 (by decide)⟩

/-! ## C6: owner-once invariance and the first-authorization race -/

/-- Resolving the assigned client after a conditional owner assignment: the
unowned client the caller saw is now owned by the assignee. -/
theorem getOAuthClient_assign (s : OAuthStore) (cid u : String)
    (c0 : OAuthClient) (h : getOAuthClient s cid = some c0)
    (hnone : c0.user_id = none) :
    getOAuthClient (assignDCRClientToUser s cid u) cid
      = some { c0 with user_id := some u } := by
  have hp := List.find?_some h
  simp only [Bool.and_eq_true, beq_iff_eq, Bool.not_eq_true'] at hp
  have hf : ∀ c : OAuthClient,
      (((if c.client_id == cid && c.user_id.isNone
          then { c with user_id := some u } else c) : OAuthClient).client_id
          == cid
        && !(if c.client_id == cid && c.user_id.isNone
          then ({ c with user_id := some u } : OAuthClient) else c).revoked)
      = (c.client_id == cid && !c.revoked) := by
    intro c
    by_cases hc : (c.client_id == cid && c.user_id.isNone) = true
    · simp only [hc, if_true]
    · simp [hc]
  unfold getOAuthClient assignDCRClientToUser
  rw [find?_map_pres _ _ hf]
  unfold getOAuthClient at h
  rw [h]
  simp [hp.1, hnone]

/-- After any assignment for `cid`, every row of `cid` is owned. -/
theorem assign_owns (s : OAuthStore) (cid u : String) :
    ∀ c' ∈ (assignDCRClientToUser s cid u).clients,
      c'.client_id = cid → c'.user_id.isSome = true := by
  intro c' hc' hcid
  unfold assignDCRClientToUser at hc'
  simp only [List.mem_map] at hc'
  obtain ⟨c, _, rfl⟩ := hc'
  by_cases h1 : (c.client_id == cid && c.user_id.isNone) = true
  · simp [h1]
  · simp only [h1, Bool.false_eq_true, if_false] at hcid ⊢
    cases hu : c.user_id with
    | some v => simp [Option.isSome]
    | none => exact absurd (by simp [hcid, hu]) h1

/-- When every row of `cid` is already owned, the conditional assignment is a
silent no-op. -/
theorem assign_noop (s : OAuthStore) (cid u : String)
    (h : ∀ c ∈ s.clients, c.client_id = cid → c.user_id.isSome = true) :
    assignDCRClientToUser s cid u = s := by
  unfold assignDCRClientToUser
  have hmap : s.clients.map (fun c =>
      if c.client_id == cid && c.user_id.isNone
      then { c with user_id := some u } else c) = s.clients := by
    conv_rhs => rw [← List.map_id s.clients]
    apply List.map_congr_left
    intro c hc
    by_cases h1 : c.client_id = cid
    · have hs := h c hc h1
      have hno : c.user_id.isNone = false := by
        cases hu : c.user_id with
        | none => rw [hu] at hs; simp at hs
        | some v => simp
      simp [hno]
    · simp [h1]
  rw [hmap]

/-- C6: a client's owner, once set, is never changed by
`assignDCRClientToUser` (first conjunct); the assignment is a silent no-op
whenever every row of the client id is already owned (second conjunct); an
authorization callback whose re-read client is owned by a different principal
is rejected with `unauthorized_client` (third conjunct); and two interleaved
first-owner assignments by different principals have exactly one winner: the
second assignment is a no-op, the first principal passes the ownership check
and the other fails it (fourth conjunct — quantified over both principals, so
it covers both interleaving orders). -/
theorem dcr_owner_stable :
    (∀ (s : OAuthStore) (cid uid : String) (i : Nat) (u : String),
      (s.clients[i]?.map OAuthClient.user_id) = some (some u) →
      ((assignDCRClientToUser s cid uid).clients[i]?.map OAuthClient.user_id)
        = some (some u))
    ∧ (∀ (s : OAuthStore) (cid uid : String),
      (∀ c ∈ s.clients, c.client_id = cid → c.user_id.isSome = true) →
      assignDCRClientToUser s cid uid = s)
    ∧ (∀ (st : CallbackState) (userId : String) (body : CallbackReq)
        (now : Nat) (freshCode : String) (pa : PendingAuth)
        (client cf : OAuthClient),
      st.pending.lookup body.auth_id = some pa →
      ¬ pa.expiresAt < now →
      body.approved = "true" →
      getOAuthClient st.store body.client_id = some client →
      getOAuthClient
          (if strStartsWith body.client_id "dcr_" && client.user_id.isNone
            then assignDCRClientToUser st.store body.client_id userId
            else st.store) body.client_id = some cf →
      cf.user_id ≠ some userId →
      (authorizeCallback st (some userId) body now freshCode).1
        = .errorResp 403 "unauthorized_client"
            "Client does not belong to this user")
    ∧ (∀ (s : OAuthStore) (cid u1 u2 : String) (c0 : OAuthClient),
      getOAuthClient s cid = some c0 → c0.user_id = none → u1 ≠ u2 →
      assignDCRClientToUser (assignDCRClientToUser s cid u1) cid u2
          = assignDCRClientToUser s cid u1
        ∧ ownershipCheck
            (assignDCRClientToUser (assignDCRClientToUser s cid u1) cid u2)
            cid u1 = true
        ∧ ownershipCheck
            (assignDCRClientToUser (assignDCRClientToUser s cid u1) cid u2)
            cid u2 = false) := by
  refine ⟨?_, fun s cid uid h => assign_noop s cid uid h, ?_, ?_⟩
  · intro s cid uid i u hu
    unfold assignDCRClientToUser
    simp only [List.getElem?_map]
    cases hli : s.clients[i]? with
    | none => rw [hli] at hu; simp at hu
    | some c =>
      rw [hli] at hu
      simp only [Option.map_some', Option.some.injEq] at hu
      have hno : c.user_id.isNone = false := by
        simp [hu]
      simp [hno, hu]
  · intro st userId body now freshCode pa client cf hlookup hexp happ hclient
      hcf hne
    have hb : (body.approved != "true") = false := by
      simp [happ]
    have hb2 : (cf.user_id != some userId) = true := by
      simpa using hne
    unfold authorizeCallback
    simp only [hlookup, if_neg hexp, hb, Bool.false_eq_true, if_false,
      hclient, hcf, hb2, if_true]
  · intro s cid u1 u2 c0 h hnone hne
    have hnoop := assign_noop (assignDCRClientToUser s cid u1) cid u2
      (assign_owns s cid u1)
    have hget := getOAuthClient_assign s cid u1 c0 h hnone
    refine ⟨hnoop, ?_, ?_⟩
    · rw [hnoop]
      unfold ownershipCheck
      rw [hget]
      simp
    · rw [hnoop]
      unfold ownershipCheck
      rw [hget]
      simp [hne]

/-- A DCR client already owned by `uA`. -/
def dcrOwnedW : OAuthClient :=
  { client_id := "dcr_1", client_secret_hash := "hash2",
    user_id := some "uA", revoked := false,
    scopes := ["mcp:tools", "mcp:resources"], last_used_at := none }

def cbStoreW : OAuthStore :=
  { clients := [dcrOwnedW], authCodes := [], refreshTokens := [] }

def cbStateW : CallbackState :=
  { pending := [("a1", { state := "xyz", expiresAt := 1000 })],
    store := cbStoreW }

def cbReqW : CallbackReq :=
  { auth_id := "a1", client_id := "dcr_1",
    redirect_uri := "https://cb.example/oauth", state := "xyz",
    code_challenge := "CH", code_challenge_method := "S256", scope := none,
    approved := "true" }

theorem dcr_owner_stable_witness :
    ((assignDCRClientToUser storeW "cid1" "uX").clients[0]?.map
        OAuthClient.user_id) = some (some "u1")
      ∧ (authorizeCallback cbStateW (some "uB") cbReqW 500 "newcode").1
          = .errorResp 403 "unauthorized_client"
              "Client does not belong to this user"
      ∧ assignDCRClientToUser (assignDCRClientToUser storeDCRW "dcr_1" "uA")
            "dcr_1" "uB"
          = assignDCRClientToUser storeDCRW "dcr_1" "uA"
      ∧ ownershipCheck
          (assignDCRClientToUser (assignDCRClientToUser storeDCRW "dcr_1" "uA")
            "dcr_1" "uB") "dcr_1" "uA" = true
      ∧ ownershipCheck
          (assignDCRClientToUser (assignDCRClientToUser storeDCRW "dcr_1" "uA")
            "dcr_1" "uB") "dcr_1" "uB" = false := by
  have hrace := dcr_owner_stable.2.2.2 storeDCRW "dcr_1" "uA" "uB" dcrClientW
    rfl rfl (by decide)
  exact ⟨dcr_owner_stable.1 storeW "cid1" "uX" 0 "u1" (by decide),
    dcr_owner_stable.2.2.1 cbStateW "uB" cbReqW 500 "newcode"
      { state := "xyz", expiresAt := 1000 } dcrOwnedW dcrOwnedW rfl
      (by decide) rfl rfl (by decide) (by decide),
    hrace.1, hrace.2.1, hrace.2.2⟩

/-! ## C1: an authorization code is exchangeable at most once -/

/-- `codeDead` is a property of the `authCodes` table alone. -/
theorem codeDead_of_eq_authCodes (s s' : OAuthStore) (c : String)
    (h : s'.authCodes = s.authCodes) (hd : codeDead s c) : codeDead s' c := by
  intro r hr hc
  exact hd r (h ▸ hr) hc

/-- After `consumeWrite s c`, every row of `c` is used. -/
theorem consumeWrite_dead (s : OAuthStore) (c : String) :
    codeDead (consumeWrite s c) c := by
  intro r' hr' hc
  unfold consumeWrite at hr'
  simp only [List.mem_map] at hr'
  obtain ⟨r, _, rfl⟩ := hr'
  by_cases h : (r.code == c) = true
  · simp [h]
  · simp only [h, Bool.false_eq_true, if_false] at hc ⊢
    exact absurd (by simp [hc]) h

/-- `consumeWrite` never unmarks a used code. -/
theorem consumeWrite_pres (s : OAuthStore) (c' c : String)
    (hd : codeDead s c) : codeDead (consumeWrite s c') c := by
  intro r' hr' hc
  unfold consumeWrite at hr'
  simp only [List.mem_map] at hr'
  obtain ⟨r, hr, rfl⟩ := hr'
  by_cases h : (r.code == c') = true
  · simp [h]
  · simp only [h, Bool.false_eq_true, if_false] at hc ⊢
    exact hd r hr hc

/-- A dead code is invisible to the consume read phase. -/
theorem codeDead_consumeRead (s : OAuthStore) (c : String) (now : Nat)
    (hd : codeDead s c) : consumeRead s c now = none := by
  unfold consumeRead
  have hfind : s.authCodes.find? (fun r => r.code == c && !r.used) = none := by
    rw [List.find?_eq_none]
    intro r hr
    by_cases hc : r.code = c
    · simp [hd r hr hc]
    · simp [hc]
  rw [hfind]

/-- Every token-endpoint step leaves the `authCodes` table unchanged or marks
one code's rows used (the `consumeWrite` of the exchanged code). -/
theorem tokenStep_snd (env : OAuthEnv) (s : OAuthStore) (k : TokenCall) :
    ((tokenStep env s k).2).authCodes = s.authCodes
      ∨ ((tokenStep env s k).2).authCodes
          = (consumeWrite s (k.req.code.getD "")).authCodes := by
  unfold tokenStep
  split
  · split
    · left; rfl
    · unfold tokenAuthCodeExchange
      cases hcl : verifyOAuthClient env.bcompare s (k.req.client_id.getD "")
          (k.req.client_secret.getD "") with
      | none => simp only [hcl]; left; trivial
      | some client =>
        simp only [hcl]
        unfold consumeAuthorizationCode
        cases hcr : consumeRead s (k.req.code.getD "") k.now with
        | none => simp only [hcr]; left; trivial
        | some r =>
          simp only [hcr]
          split
          · right; trivial
          · split
            · right; trivial
            · split
              · right; trivial
              · split
                · right; trivial
                · right; trivial
  · split
    · split
      · left; rfl
      · unfold tokenRefreshExchange
        cases hcl : verifyOAuthClient env.bcompare s (k.req.client_id.getD "")
            (k.req.client_secret.getD "") with
        | none => simp only [hcl]; left; trivial
        | some client =>
          simp only [hcl]
          unfold verifyRefreshToken
          cases hft : s.refreshTokens.find? (fun t =>
              t.token_hash == env.shaHex (k.req.refresh_token.getD "")
                && !t.revoked) with
          | none => simp only [hft]; left; trivial
          | some t =>
            simp only [hft]
            by_cases hexp : t.expires_at < k.now
            · rw [if_pos hexp]
              left; rfl
            · rw [if_neg hexp]
              dsimp only
              split
              · left; rfl
              · split
                · left; rfl
                · left; rfl
    · left; rfl

/-- A successful authorization-code exchange implies the read phase saw a
live row, and leaves the code's rows marked used. -/
theorem tokenStep_success_snd (env : OAuthEnv) (s : OAuthStore) (k : TokenCall)
    (hs : isSuccess (tokenStep env s k).1 = true)
    (hg : (k.req.grant_type == some "authorization_code") = true) :
    ((tokenStep env s k).2).authCodes
        = (consumeWrite s (k.req.code.getD "")).authCodes
      ∧ consumeRead s (k.req.code.getD "") k.now ≠ none := by
  unfold tokenStep at hs ⊢
  rw [if_pos hg] at hs ⊢
  by_cases hp : (!(strPresent k.req.code && strPresent k.req.redirect_uri
      && strPresent k.req.client_id && strPresent k.req.client_secret
      && strPresent k.req.code_verifier)) = true
  · rw [if_pos hp] at hs
    simp [isSuccess] at hs
  · rw [if_neg hp] at hs ⊢
    unfold tokenAuthCodeExchange at hs ⊢
    cases hcl : verifyOAuthClient env.bcompare s (k.req.client_id.getD "")
        (k.req.client_secret.getD "") with
    | none =>
      simp only [hcl] at hs
      simp [isSuccess] at hs
    | some client =>
      simp only [hcl] at hs ⊢
      unfold consumeAuthorizationCode at hs ⊢
      cases hcr : consumeRead s (k.req.code.getD "") k.now with
      | none =>
        simp only [hcr] at hs
        simp [isSuccess] at hs
      | some r =>
        simp only [hcr]
        refine ⟨?_, by simp [hcr]⟩
        split
        · rfl
        · split
          · rfl
          · split
            · rfl
            · split
              · rfl
              · rfl

/-- A successful exchange of code `c` leaves `c` dead. -/
theorem success_marks (env : OAuthEnv) (s : OAuthStore) (k : TokenCall)
    (c : String) (hk : usesCode k c = true)
    (hs : isSuccess (tokenStep env s k).1 = true) :
    codeDead ((tokenStep env s k).2) c := by
  unfold usesCode at hk
  rw [Bool.and_eq_true] at hk
  obtain ⟨hg, hcode⟩ := hk
  have hc : k.req.code.getD "" = c := by
    simp only [beq_iff_eq] at hcode
    rw [hcode]
    rfl
  have hsnd := tokenStep_success_snd env s k hs hg
  rw [hc] at hsnd
  exact codeDead_of_eq_authCodes (consumeWrite s c) _ c hsnd.1
    (consumeWrite_dead s c)

/-- No token-endpoint step revives a dead code. -/
theorem tokenStep_preserves_codeDead (env : OAuthEnv) (s : OAuthStore)
    (k : TokenCall) (c : String) (hd : codeDead s c) :
    codeDead ((tokenStep env s k).2) c := by
  rcases tokenStep_snd env s k with h | h
  · exact codeDead_of_eq_authCodes s _ c h hd
  · exact codeDead_of_eq_authCodes (consumeWrite s (k.req.code.getD "")) _ c h
      (consumeWrite_pres s _ c hd)

/-- An exchange of a dead code can never succeed. -/
theorem codeDead_no_success (env : OAuthEnv) (s : OAuthStore) (k : TokenCall)
    (c : String) (hd : codeDead s c) (hk : usesCode k c = true) :
    isSuccess (tokenStep env s k).1 = false := by
  cases hv : isSuccess (tokenStep env s k).1 with
  | false => rfl
  | true =>
    unfold usesCode at hk
    rw [Bool.and_eq_true] at hk
    obtain ⟨hg, hcode⟩ := hk
    have hc : k.req.code.getD "" = c := by
      simp only [beq_iff_eq] at hcode
      rw [hcode]
      rfl
    have hsnd := tokenStep_success_snd env s k hv hg
    rw [hc] at hsnd
    exact absurd (codeDead_consumeRead s c k.now hd) hsnd.2

/-- Once a code is dead, no later run of the endpoint exchanges it. -/
theorem count_zero_of_dead (env : OAuthEnv) (c : String) :
    ∀ (calls : List TokenCall) (s : OAuthStore), codeDead s c →
      countCodeSuccesses env s c calls = 0 := by
  intro calls
  induction calls with
  | nil => intro s _; rfl
  | cons k ks ih =>
    intro s hd
    unfold countCodeSuccesses
    have h1 : (usesCode k c && isSuccess (tokenStep env s k).1) = false := by
      by_cases hk : usesCode k c = true
      · simp [hk, codeDead_no_success env s k c hd hk]
      · have hk' : usesCode k c = false := by
          simpa using hk
        simp [hk']
    simp only [h1, Bool.false_eq_true, if_false, Nat.zero_add]
    exact ih _ (tokenStep_preserves_codeDead env s k c hd)

/-- At most one call in any sequential run successfully exchanges `c`. -/
theorem count_le_one (env : OAuthEnv) (c : String) :
    ∀ (calls : List TokenCall) (s : OAuthStore),
      countCodeSuccesses env s c calls ≤ 1 := by
  intro calls
  induction calls with
  | nil => intro s; simp [countCodeSuccesses]
  | cons k ks ih =>
    intro s
    unfold countCodeSuccesses
    by_cases hk : (usesCode k c && isSuccess (tokenStep env s k).1) = true
    · have hk2 := hk
      rw [Bool.and_eq_true] at hk2
      obtain ⟨hu, hs⟩ := hk2
      simp only [hk, if_true]
      rw [count_zero_of_dead env c ks _ (success_marks env s k c hu hs)]
    · have hk' : (usesCode k c && isSuccess (tokenStep env s k).1)
          = false := by
        simpa using hk
      simp only [hk', Bool.false_eq_true, if_false, Nat.zero_add]
      exact ih _

/-- Dead codes stay dead along any run. -/
theorem dead_run (env : OAuthEnv) (c : String) :
    ∀ (calls : List TokenCall) (s : OAuthStore), codeDead s c →
      codeDead (execCalls env s calls) c := by
  intro calls
  induction calls with
  | nil => intro s hd; exact hd
  | cons k ks ih =>
    intro s hd
    exact ih _ (tokenStep_preserves_codeDead env s k c hd)

/-- A well-formed, client-authenticated exchange of a code whose read phase
fails answers `invalid_grant` and leaves the store untouched (no tokens). -/
theorem exchange_dead_code (env : OAuthEnv) (s : OAuthStore) (k : TokenCall)
    (c : String) (hwf : wfExchangeReq k.req c) (cl : OAuthClient)
    (hcl : verifyOAuthClient env.bcompare s (k.req.client_id.getD "")
      (k.req.client_secret.getD "") = some cl)
    (hread : consumeRead s c k.now = none) :
    tokenStep env s k
      = (.error 400 "invalid_grant" "Invalid or expired authorization code",
          s) := by
  rw [tokenStep_authCode env s k c hwf]
  obtain ⟨hg, hc, _⟩ := hwf
  unfold tokenAuthCodeExchange consumeAuthorizationCode
  rw [hc]
  simp only [Option.getD_some, hcl, hread]

/-- C1: for every issued authorization code, at most one token-endpoint call
exchanging it succeeds along any sequential run (first conjunct); and after a
successful exchange of the code, every later well-formed, client-
authenticated exchange of the same code — now consumed (likewise expired or
unknown codes, whose read phase also fails) — answers `invalid_grant` and
issues no tokens, leaving the store untouched (second conjunct). -/
theorem auth_code_single_use (env : OAuthEnv) (c : String) :
    (∀ (s0 : OAuthStore) (calls : List TokenCall),
        countCodeSuccesses env s0 c calls ≤ 1)
    ∧ (∀ (s0 : OAuthStore) (pre mid : List TokenCall) (k k' : TokenCall),
        usesCode k c = true →
        isSuccess (tokenStep env (execCalls env s0 pre) k).1 = true →
        wfExchangeReq k'.req c →
        clientAuthOk env
          (execCalls env (tokenStep env (execCalls env s0 pre) k).2 mid)
          k'.req →
        tokenStep env
            (execCalls env (tokenStep env (execCalls env s0 pre) k).2 mid) k'
          = (.error 400 "invalid_grant"
                "Invalid or expired authorization code",
              execCalls env (tokenStep env (execCalls env s0 pre) k).2 mid)) := by
  constructor
  · intro s0 calls
    exact count_le_one env c calls s0
  · intro s0 pre mid k k' hk hs hwf hauth
    obtain ⟨cl, hcl⟩ := hauth
    have hdead : codeDead ((tokenStep env (execCalls env s0 pre) k).2) c :=
      success_marks env _ k c hk hs
    have hdead2 := dead_run env c mid _ hdead
    exact exchange_dead_code env _ k' c hwf cl hcl
      (codeDead_consumeRead _ c k'.now hdead2)

theorem auth_code_single_use_witness :
    countCodeSuccesses envW storeW "code1"
        [kW "ver1" "f1", kW "ver1" "f2"] ≤ 1
      ∧ (tokenStep envW
          (execCalls envW
            (tokenStep envW (execCalls envW storeW []) (kW "ver1" "f1")).2 [])
          (kW "ver1" "f2")).1
        = .error 400 "invalid_grant"
            "Invalid or expired authorization code" := by
  refine ⟨(auth_code_single_use envW "code1").1 storeW _, ?_⟩
  have h := (auth_code_single_use envW "code1").2 storeW [] []
    (kW "ver1" "f1") (kW "ver1" "f2") (by decide) (by decide)
    ⟨rfl, rfl, by decide, by decide, by decide, by decide, by decide⟩
    ⟨{ clientW with last_used_at := some 500 }, by decide⟩
  exact congrArg Prod.fst h
